import Mathlib

/-!
Verification of the Sudoku constraint-propagation solver in `4_sudoku.py`.

The grid is a list of rows, each a list of natural numbers; 0 denotes an
unknown cell.  `solve_puzzle` is embedded as a fuel-indexed recursion
(`solveAux`), where each recursive call corresponds to one recursive call of
the Python function (one propagation round).  The fuel `countZeros g + 1` is
provably sufficient for well-formed 9 by 9 grids, so the embedded
`solve_puzzle` agrees with the unbounded recursion of the source.

The Python function mutates its numpy-array argument in place; the embedding
passes the state explicitly: `solveRun` returns both the result
(`Option Grid`, `none` standing for the Python `None` result) and the final
state of the mutated array, so that the frame behaviour of the source is
observable.

One input makes the source raise instead of return: when every candidate
list of a round has one common nonzero length (exactly the all-zero grid),
`np.array(valid_digits, dtype=object)` builds a `(9, 9, 9)` array rather
than a 9 by 9 array of lists, and `set(itertools.chain.from_iterable(...))`
raises TypeError.  `solveAuxP` models the call at this Python level, with
`PyResult.typeError` for the escaping exception; `solveAux`/`solveRun` is
the tagged-result model of the non-raising runs, and the two provably agree
on every well-formed grid with at least one given digit.
-/

/-- A Sudoku grid: a list of rows of digits, 0 meaning unknown.
Mirrors the 9 by 9 numpy array of the source. -/
abbrev Grid := List (List Nat)

/-- Read one cell; out-of-range reads default to 0 (only ever used with
indices below 9, which are in range for well-formed grids). -/
def getCell (g : Grid) (r c : Nat) : Nat := (g.getD r []).getD c 0

/-- Write one cell, mirroring `sudoku_puzzle[r, c] = v` on a numpy array. -/
def setCell (g : Grid) (r c v : Nat) : Grid := g.set r ((g.getD r []).set c v)

/-- The grid has exactly 9 rows of 9 entries each (the shape the source
assumes for its numpy array). -/
def wellFormed (g : Grid) : Bool := g.length = 9 && g.all fun row => row.length = 9

/-- `0 not in sudoku_puzzle`: every stored entry is nonzero. -/
def isFull (g : Grid) : Bool := g.all fun row => row.all fun v => v ≠ 0

/-- The digits 1 to 9, as produced by `range(1, 10)` in the source. -/
def digits : List Nat := [1, 2, 3, 4, 5, 6, 7, 8, 9]

/-- The cells of row `r`, in ascending column order. -/
def rowCells (r : Nat) : List (Nat × Nat) := (List.range 9).map fun c => (r, c)

/-- The cells of column `c`, in ascending row order. -/
def colCells (c : Nat) : List (Nat × Nat) := (List.range 9).map fun r => (r, c)

/-- The cells of the 3 by 3 region containing `(r, c)`, in row-major order:
the slice `[r//3*3 : r//3*3+3, c//3*3 : c//3*3+3]` of the source. -/
def boxCellsAt (r c : Nat) : List (Nat × Nat) :=
  (List.range 3).flatMap fun i => (List.range 3).map fun j => (r / 3 * 3 + i, c / 3 * 3 + j)

/-- The values stored in a list of cells. -/
def unitVals (g : Grid) (u : List (Nat × Nat)) : List Nat :=
  u.map fun p => getCell g p.1 p.2

/-- Candidate digits of a cell: the digits `n` in `range(1, 10)` with
`not (n in row or n in column or n in region)`, in ascending order.
A pure read of the grid, exactly as in the source loop. -/
def candidates (g : Grid) (r c : Nat) : List Nat :=
  digits.filter fun n =>
    ¬(n ∈ unitVals g (rowCells r) ∨ n ∈ unitVals g (colCells c) ∨
      n ∈ unitVals g (boxCellsAt r c))

/-- One step of the naked-single scan at cell `(r, c)`: skip non-void cells;
if the candidate list has exactly one member, that digit is placed here. -/
def nakedAt (g : Grid) (r c : Nat) : Option (Nat × Nat × Nat) :=
  if getCell g r c ≠ 0 then none
  else
    match candidates g r c with
    | [d] => some (r, c, d)
    | _ => none

/-- The naked-single scan: cells in row-major order, first hit wins
(the source returns out of the nested `for` loops at the first match). -/
def findNaked (g : Grid) : Option (Nat × Nat × Nat) :=
  (List.range 9).findSome? fun r => (List.range 9).findSome? fun c => nakedAt g r c

/-- `valid_digits[r][c]` as used by the hidden-single scans: the empty list
for non-void cells, the candidate list for void cells. -/
def vd (g : Grid) (r c : Nat) : List Nat :=
  if getCell g r c ≠ 0 then [] else candidates g r c

/-- First-occurrence deduplication (a repeated insertion into a Python set
leaves the set unchanged). -/
def dedupAux : List Nat → List Nat → List Nat
  | [], _ => []
  | x :: xs, seen => if x ∈ seen then dedupAux xs seen else x :: dedupAux xs (x :: seen)

/-- The distinct elements of `xs` in order of first insertion. -/
def dedupFO (xs : List Nat) : List Nat := dedupAux xs []

/-- CPython open-addressing probe for a free slot in an 8-slot set table:
start at `hash & 7`; on collision shift the perturb by 5 bits and move to
`(5 * i + 1 + perturb) & 7`.  (For table size 8 the linear-probe window of
CPython is always skipped, since `i + 9 > 7`.)  The fuel 8 bounds the walk;
the probe sequence visits every slot of the table, so a free slot is found
whenever fewer than 8 slots are occupied. -/
def probeFree : List (Option Nat) → Nat → Nat → Nat → Nat
  | _, 0, i, _ => i
  | t, fuel + 1, i, p =>
    match t.getD i none with
    | none => i
    | some _ => probeFree t fuel ((5 * i + 1 + p / 32) % 8) (p / 32)

/-- Insert a small integer into an 8-slot CPython set table
(`hash(n) = n` for these integers). -/
def setInsert8 (t : List (Option Nat)) (d : Nat) : List (Option Nat) :=
  t.set (probeFree t 8 (d % 8) d) (some d)

/-- Iteration order of `set(xs)` in CPython for elements drawn from 1..9:
the table keeps 8 slots while at most 4 distinct elements are present
(CPython resizes when `fill * 5 >= mask * 3`, i.e. at the fifth distinct
insertion, and then grows to 32 slots, where the digits 1..9 occupy the
slots equal to their own value, so iteration is ascending); with at most 4
distinct elements, iteration follows the 8-slot table order, where 8 and 9
hash to slots 0 and 1. -/
def pySetList (xs : List Nat) : List Nat :=
  let ds := dedupFO xs
  if 5 ≤ ds.length then digits.filter fun n => n ∈ ds
  else ((ds.foldl setInsert8 (List.replicate 8 none)).filterMap id)

/-- The type of the materialized `valid_digits` table: one candidate list
per cell. -/
abbrev VDTable := List (List (List Nat))

/-- The `valid_digits` list of lists of the source, materialized once per
round (the source fills it during the naked-single pass and the hidden
scans then only read it).  This is the 9 by 9 array-of-lists shape of
`valid_digits_array`; the rectangular numpy collapse that raises TypeError
instead is detected by `vdCollapses` before any hidden scan runs. -/
def vdTable (g : Grid) : VDTable :=
  (List.range 9).map fun r => (List.range 9).map fun c => vd g r c

/-- Read one entry of the `valid_digits` table. -/
def vdAt (t : VDTable) (r c : Nat) : List Nat := (t.getD r []).getD c []

/-- The list `digit_presence` of the source for digit `d` in unit `u`: for
each cell of the unit, whether `d` is in its valid-digit list. -/
def presList (t : VDTable) (u : List (Nat × Nat)) (d : Nat) : List Bool :=
  u.map fun p => decide (d ∈ vdAt t p.1 p.2)

/-- The unit cell at `digit_presence.index(True)`. -/
def hiddenCell (t : VDTable) (u : List (Nat × Nat)) (d : Nat) : Nat × Nat :=
  u.getD ((presList t u d).indexOf true) (0, 0)

/-- Hidden-single test of digit `d` in the unit `u`: if `d` occurs in
exactly one candidate list of the unit (`sum(digit_presence) == 1`), place
`d` at the cell at `digit_presence.index(True)`. -/
def hiddenDigitAt (t : VDTable) (u : List (Nat × Nat)) (d : Nat) : Option (Nat × Nat × Nat) :=
  if (presList t u d).count true = 1 then
    some ((hiddenCell t u d).1, (hiddenCell t u d).2, d)
  else none

/-- Hidden-single scan of one unit: `digits_to_check` is the Python set of
the union of the candidate lists of the cells of the unit, iterated in
CPython set order; the first qualifying digit wins.  Reached only when the
table really is an array of per-cell lists (`vdCollapses` is false, checked
by `solveAuxP`); otherwise the source raises before any unit is scanned. -/
def hiddenInUnit (t : VDTable) (u : List (Nat × Nat)) : Option (Nat × Nat × Nat) :=
  (pySetList ((u.map fun p => vdAt t p.1 p.2).flatten)).findSome? (hiddenDigitAt t u)

/-- Hidden-single scan over the rows, ascending row index. -/
def findHiddenRows (t : VDTable) : Option (Nat × Nat × Nat) :=
  (List.range 9).findSome? fun r => hiddenInUnit t (rowCells r)

/-- Hidden-single scan over the columns, ascending column index. -/
def findHiddenCols (t : VDTable) : Option (Nat × Nat × Nat) :=
  (List.range 9).findSome? fun c => hiddenInUnit t (colCells c)

/-- The nine 3 by 3 regions in the order the source builds them:
`for row_n in range(0, 9, 3) for col_n in range(0, 9, 3)`. -/
def boxUnits : List (List (Nat × Nat)) :=
  (List.range 3).flatMap fun bi => (List.range 3).map fun bj => boxCellsAt (3 * bi) (3 * bj)

/-- Hidden-single scan over the regions, ascending region index. -/
def findHiddenBoxes (t : VDTable) : Option (Nat × Nat × Nat) :=
  boxUnits.findSome? fun u => hiddenInUnit t u

/-- The hidden-single cascade of one round, reading the materialized
`valid_digits` table: rows, then columns, then regions. -/
def findHidden (t : VDTable) : Option (Nat × Nat × Nat) :=
  match findHiddenRows t with
  | some p => some p
  | none =>
    match findHiddenCols t with
    | some p => some p
    | none => findHiddenBoxes t

/-- One propagation round: the naked-single scan, then (only if it found
nothing) the hidden-single cascade over the `valid_digits` table of the
round.  Returns the placement `(row, column, digit)` of the round, or
`none` when the source falls through to `return None`. -/
def findPlacement (g : Grid) : Option (Nat × Nat × Nat) :=
  match findNaked g with
  | some p => some p
  | none => findHidden (vdTable g)

/-- The outcome of one Python call of `solve_puzzle`: either an unhandled
TypeError escaping the call, or a returned value; both carry the observable
content of the mutated array at that moment. -/
inductive PyResult
  | typeError (st : Grid)
  | returns (res : Option Grid) (st : Grid)
deriving DecidableEq

/-- The 81 candidate-list lengths of a round table, row-major. -/
def vdLengths (t : VDTable) : List Nat := t.flatten.map List.length

/-- Whether `np.array(valid_digits, dtype=object)` collapses into a
three-dimensional `(9, 9, 9k)` array instead of a 9 by 9 array of lists:
numpy does so exactly when all 81 lists share one common length.  When that
common length is nonzero, the flattened unit slices yield bare ints and
`set(itertools.chain.from_iterable(...))` raises TypeError.  (With common
length zero the slices flatten to nothing, every unit sees an empty digit
set, and the scans fall through exactly as in the per-cell-list model, so
only the nonzero case is an observable collapse.) -/
def vdCollapses (t : VDTable) : Bool :=
  ((vdLengths t).all fun n => n = (vdLengths t).headD 0) && (vdLengths t).headD 0 ≠ 0

/-- The fuelled recursion of `solve_puzzle` at the Python level, numpy
collapse included: a round whose naked scan found nothing builds
`valid_digits_array`; if all 81 candidate lists share one nonzero length
that call raises TypeError (surfaced as `PyResult.typeError` with the
array content at that moment), otherwise the hidden cascade runs on the
9 by 9 array of lists.  The outer `none` marks fuel exhaustion, never
reached with fuel above `countZeros`. -/
def solveAuxP : Nat → Grid → Option PyResult
  | 0, _ => none
  | fuel + 1, g =>
    if isFull g then some (PyResult.returns (some g) g)
    else
      match findNaked g with
      | some (r, c, d) => solveAuxP fuel (setCell g r c d)
      | none =>
        if vdCollapses (vdTable g) then some (PyResult.typeError g)
        else
          match findHidden (vdTable g) with
          | some (r, c, d) => solveAuxP fuel (setCell g r c d)
          | none => some (PyResult.returns none g)

/-- The unbounded recursion of `solve_puzzle`, indexed by fuel; each unit of
fuel pays for one recursive call (one placement).  The outer `none` marks
fuel exhaustion and is never reached from a well-formed grid with fuel
above `countZeros`.  The pair carries (result, final state of the mutated
array). -/
def solveAux : Nat → Grid → Option (Option Grid × Grid)
  | 0, _ => none
  | fuel + 1, g =>
    if isFull g then some (some g, g)
    else
      match findPlacement g with
      | some (r, c, d) => solveAux fuel (setCell g r c d)
      | none => some (none, g)

/-- All 81 cell coordinates of a 9 by 9 grid, row-major. -/
def allCells : List (Nat × Nat) :=
  (List.range 9).flatMap fun r => (List.range 9).map fun c => (r, c)

/-- Number of unknown cells (of the virtual 9 by 9 view). -/
def countZeros (g : Grid) : Nat :=
  allCells.countP fun p => decide (getCell g p.1 p.2 = 0)

/-- Number of placed cells (of the virtual 9 by 9 view). -/
def countNonZero (g : Grid) : Nat :=
  allCells.countP fun p => decide (getCell g p.1 p.2 ≠ 0)

/-- Run the solver: result and final state of the grid.  The fuel
`countZeros g + 1` is sufficient (each round fills one unknown cell), so
this equals the unbounded recursion of the source on well-formed grids. -/
def solveRun (g : Grid) : Option Grid × Grid :=
  (solveAux (countZeros g + 1) g).getD (none, g)

/-- `solve_puzzle`: the value returned by the Python function — the solved
grid, or `none` (the Python `None`, printed as the token Unsolvable). -/
def solve_puzzle (g : Grid) : Option Grid := (solveRun g).1

/-- The observable content of the caller's numpy array after `solve_puzzle`
returns (the source mutates its argument in place). -/
def solveState (g : Grid) : Grid := (solveRun g).2

/-- `sdm_to_array`: split a decoded 81-digit SDM sequence into 9 rows of 9,
row-major (the source slices `sdm_string[row_n-9:row_n]`). -/
def sdm_to_array (s : List Nat) : Grid :=
  (List.range 9).map fun r => (List.range 9).map fun c => s.getD (9 * r + c) 0

/-- The 27 units: rows, then columns, then regions. -/
def allUnits : List (List (Nat × Nat)) :=
  ((List.range 9).map rowCells) ++ ((List.range 9).map colCells) ++ boxUnits

/-- No unit holds the same nonzero digit twice. -/
def consistent (g : Grid) : Bool :=
  allUnits.all fun u => digits.all fun d => (unitVals g u).count d ≤ 1

/-- Every unit holds every digit 1..9 exactly once (a complete solution). -/
def unitsComplete (g : Grid) : Bool :=
  allUnits.all fun u => digits.all fun d => (unitVals g u).count d = 1

/-!  Concrete grids used by the counterexamples and witnesses. -/

/-- A contradictory grid: row 1 holds the digit 5 twice.  Cell (0, 8) is
void with sole candidate 9. -/
def gDup : Grid :=
  [[1, 2, 3, 4, 5, 6, 7, 8, 0],
   [5, 5, 0, 0, 0, 0, 0, 0, 0],
   [0, 0, 0, 0, 0, 0, 0, 0, 0],
   [0, 0, 0, 0, 0, 0, 0, 0, 0],
   [0, 0, 0, 0, 0, 0, 0, 0, 0],
   [0, 0, 0, 0, 0, 0, 0, 0, 0],
   [0, 0, 0, 0, 0, 0, 0, 0, 0],
   [0, 0, 0, 0, 0, 0, 0, 0, 0],
   [0, 0, 0, 0, 0, 0, 0, 0, 0]]

/-- A consistent grid with exactly one forced move (9 at (0, 8)), after
which no propagation rule applies. -/
def gMono : Grid :=
  [[1, 2, 3, 4, 5, 6, 7, 8, 0],
   [0, 0, 0, 0, 0, 0, 0, 0, 0],
   [0, 0, 0, 0, 0, 0, 0, 0, 0],
   [0, 0, 0, 0, 0, 0, 0, 0, 0],
   [0, 0, 0, 0, 0, 0, 0, 0, 0],
   [0, 0, 0, 0, 0, 0, 0, 0, 0],
   [0, 0, 0, 0, 0, 0, 0, 0, 0],
   [0, 0, 0, 0, 0, 0, 0, 0, 0],
   [0, 0, 0, 0, 0, 0, 0, 0, 0]]

/-- The all-zero grid: every cell unknown.  The only well-formed grid on
which all 81 candidate lists share one nonzero length (every list is
1..9), so the one input on which the source raises TypeError. -/
def gZero : Grid := List.replicate 9 (List.replicate 9 0)

/-- A full but contradictory grid (every cell 1). -/
def gAllOnes : Grid := List.replicate 9 (List.replicate 9 1)

/-- A grid with no naked single whose first scanned unit (row 0) has two
hidden singles: digit 2 only at (0, 0) and digit 8 only at (0, 1).  The
candidate lists of row 0 are {2,3}, {8,9}, {3,9}, {3,9}, so
`digits_to_check = {2, 3, 8, 9}`, which CPython iterates as 8, 9, 2, 3. -/
def gSetOrder : Grid :=
  [[0, 0, 0, 0, 1, 4, 5, 6, 7],
   [0, 0, 0, 0, 0, 0, 0, 0, 0],
   [0, 0, 0, 0, 0, 0, 0, 0, 0],
   [8, 2, 0, 0, 0, 0, 0, 0, 0],
   [9, 3, 0, 2, 0, 0, 0, 0, 0],
   [0, 0, 0, 8, 0, 0, 0, 0, 0],
   [0, 0, 2, 0, 0, 0, 0, 0, 0],
   [0, 0, 8, 0, 0, 0, 0, 0, 0],
   [0, 0, 0, 0, 0, 0, 0, 0, 0]]

/-- The end-to-end test input of the spec, decoded digit by digit. -/
def c8Input : List Nat :=
  [0,0,4,0,0,6,0,7,9,
   0,0,0,0,0,0,6,0,2,
   0,5,6,0,9,2,3,0,0,
   0,7,8,0,6,1,0,3,0,
   5,0,9,0,0,0,4,0,6,
   0,2,0,5,4,0,8,9,0,
   0,0,7,4,1,0,9,2,0,
   1,0,5,0,0,0,0,0,0,
   8,4,0,6,0,0,1,0,0]

/-!  The spec-side placement rule for claim C3.  It follows the words of the
spec: identical to `findPlacement` except that each unit's candidate digits
are examined in ascending numeric order rather than in CPython set order. -/

/-- Modelled from the spec: the union of candidate digits of a unit in
ascending order ("For each candidate digit (ascending order) ..."). -/
def ascSetList (xs : List Nat) : List Nat := digits.filter fun n => n ∈ xs

/-- Hidden-single scan of one unit with digits in ascending order, per the
words of the spec. -/
def specHiddenInUnit (t : VDTable) (u : List (Nat × Nat)) : Option (Nat × Nat × Nat) :=
  (ascSetList ((u.map fun p => vdAt t p.1 p.2).flatten)).findSome? (hiddenDigitAt t u)

/-- The hidden-single cascade with ascending digit order, per the words of
the spec. -/
def specFindHidden (t : VDTable) : Option (Nat × Nat × Nat) :=
  match (List.range 9).findSome? fun r => specHiddenInUnit t (rowCells r) with
  | some p => some p
  | none =>
    match (List.range 9).findSome? fun c => specHiddenInUnit t (colCells c) with
    | some p => some p
    | none => boxUnits.findSome? fun u => specHiddenInUnit t u

/-- The placement rule as claim C3 states it: like `findPlacement`, with
every unit's digits examined in ascending order. -/
def specFindPlacement (g : Grid) : Option (Nat × Nat × Nat) :=
  match findNaked g with
  | some p => some p
  | none => specFindHidden (vdTable g)


/-! ### The complete scan order, as one list -/

/-- All naked-single hits in row-major scan order. -/
def nakedList (g : Grid) : List (Nat × Nat × Nat) :=
  (List.range 9).flatMap fun r => (List.range 9).filterMap fun c => nakedAt g r c

/-- All hidden-single hits of one unit, digits in CPython set order. -/
def hiddenUnitList (t : VDTable) (u : List (Nat × Nat)) : List (Nat × Nat × Nat) :=
  (pySetList ((u.map fun p => vdAt t p.1 p.2).flatten)).filterMap (hiddenDigitAt t u)

/-- All hidden-single hits of the rows, ascending row index. -/
def hiddenRowsList (t : VDTable) : List (Nat × Nat × Nat) :=
  (List.range 9).flatMap fun r => hiddenUnitList t (rowCells r)

/-- All hidden-single hits of the columns, ascending column index. -/
def hiddenColsList (t : VDTable) : List (Nat × Nat × Nat) :=
  (List.range 9).flatMap fun c => hiddenUnitList t (colCells c)

/-- All hidden-single hits of the regions, ascending region index. -/
def hiddenBoxesList (t : VDTable) : List (Nat × Nat × Nat) :=
  boxUnits.flatMap fun u => hiddenUnitList t u

/-- Every qualifying (cell, digit) pair, listed in the full deterministic
traversal order of the solver: naked singles in row-major cell order first,
then hidden singles over rows, then columns, then regions, each unit's
digits in CPython set-iteration order. -/
def placementScanList (g : Grid) : List (Nat × Nat × Nat) :=
  nakedList g ++ (hiddenRowsList (vdTable g) ++
    (hiddenColsList (vdTable g) ++ hiddenBoxesList (vdTable g)))

/-- The solution the solver computes for the end-to-end input. -/
def c8Solution : Grid :=
  [[2, 8, 4, 1, 3, 6, 5, 7, 9],
   [9, 1, 3, 7, 5, 4, 6, 8, 2],
   [7, 5, 6, 8, 9, 2, 3, 4, 1],
   [4, 7, 8, 9, 6, 1, 2, 3, 5],
   [5, 3, 9, 2, 8, 7, 4, 1, 6],
   [6, 2, 1, 5, 4, 3, 8, 9, 7],
   [3, 6, 7, 4, 1, 5, 9, 2, 8],
   [1, 9, 5, 3, 2, 8, 7, 6, 4],
   [8, 4, 2, 6, 7, 9, 1, 5, 3]]

/-- The grid `gMono` after its one forced placement. -/
def gMonoAfter : Grid :=
  [[1, 2, 3, 4, 5, 6, 7, 8, 9],
   [0, 0, 0, 0, 0, 0, 0, 0, 0],
   [0, 0, 0, 0, 0, 0, 0, 0, 0],
   [0, 0, 0, 0, 0, 0, 0, 0, 0],
   [0, 0, 0, 0, 0, 0, 0, 0, 0],
   [0, 0, 0, 0, 0, 0, 0, 0, 0],
   [0, 0, 0, 0, 0, 0, 0, 0, 0],
   [0, 0, 0, 0, 0, 0, 0, 0, 0],
   [0, 0, 0, 0, 0, 0, 0, 0, 0]]

/-! ### Generic list lemmas -/

/-- An early-return search equals the head of the list of all hits. -/
theorem findSome_as_head {α β : Type} (f : α → Option β) (l : List α) :
    l.findSome? f = (l.filterMap f).head? := (List.filterMap_head? f l).symm

/-- Taking heads per group and then the first head is the head of the
concatenation of the groups. -/
theorem head_filterMap_head {α β : Type} (h : α → List β) (l : List α) :
    (l.filterMap fun a => (h a).head?).head? = (l.flatMap h).head? := by
  induction l with
  | nil => rfl
  | cons a t ih =>
    cases hha : h a with
    | nil => simpa [List.filterMap_cons, hha] using ih
    | cons b bs => simp [List.filterMap_cons, hha]

/-- An early-return cascade of two stages equals the head of the
concatenation of their hit lists. -/
theorem match_head {α : Type} (a b : Option α) (la lb : List α)
    (ha : a = la.head?) (hb : b = lb.head?) :
    (match a with | some p => some p | none => b) = (la ++ lb).head? := by
  subst ha hb
  cases la with
  | nil => simp
  | cons x t => simp

/-- Flipping one list element from satisfying `p` to violating `q` drops the
count by exactly one (all other elements agreeing). -/
theorem countP_flip {α : Type} {p q : α → Bool} {a : α} :
    ∀ {l : List α}, l.Nodup → a ∈ l → p a = true → q a = false →
      (∀ x ∈ l, x ≠ a → q x = p x) → l.countP q + 1 = l.countP p := by
  intro l
  induction l with
  | nil => intro _ h; cases h
  | cons x t ih =>
    intro hnd hmem hpa hqa hagree
    have hxt : x ∉ t := (List.nodup_cons.1 hnd).1
    rcases List.mem_cons.1 hmem with rfl | hmt
    · have hqp : t.countP q = t.countP p := by
        apply List.countP_congr
        intro y hy
        rw [hagree y (List.mem_cons_of_mem _ hy) (fun h => hxt (h ▸ hy))]
      rw [List.countP_cons, List.countP_cons, hqp, hpa, hqa]
      simp
    · have hxa : x ≠ a := fun h => hxt (h ▸ hmt)
      have hqx : q x = p x := hagree x (List.mem_cons_self x t) hxa
      rw [List.countP_cons, List.countP_cons, hqx]
      have hr := ih (List.nodup_cons.1 hnd).2 hmt hpa hqa
        (fun y hy hya => hagree y (List.mem_cons_of_mem _ hy) hya)
      omega

/-- Changing the image of one list element to a value different from `e`
cannot increase the number of occurrences of `e` among the images. -/
theorem count_map_ne {α : Type} {f f2 : α → Nat} {a : α} {e : Nat}
    (he : f2 a ≠ e) :
    ∀ {u : List α}, u.Nodup → (∀ x ∈ u, x ≠ a → f2 x = f x) →
      (u.map f2).count e ≤ (u.map f).count e := by
  intro u
  induction u with
  | nil => simp
  | cons x t ih =>
    intro hnd hagree
    have hxt : x ∉ t := (List.nodup_cons.1 hnd).1
    have hrest := ih (List.nodup_cons.1 hnd).2
      (fun y hy hya => hagree y (List.mem_cons_of_mem _ hy) hya)
    by_cases hxa : x = a
    · subst hxa
      have hmc : t.map f2 = t.map f := List.map_congr_left fun y hy =>
        hagree y (List.mem_cons_of_mem _ hy) (fun h => hxt (h ▸ hy))
      simp only [List.map_cons]
      rw [List.count_cons_of_ne (fun h => he h.symm), hmc]
      exact List.count_le_count_cons e (f x) (t.map f)
    · have hfx : f2 x = f x := hagree x (List.mem_cons_self x t) hxa
      simp only [List.map_cons, List.count_cons, hfx]
      omega

/-- If `d` does not occur among the images of a duplicate-free list and the
image of one member is changed to `d`, then `d` occurs exactly once among
the new images. -/
theorem count_map_self {α : Type} {f f2 : α → Nat} {a : α} {d : Nat}
    (hfa : f2 a = d) :
    ∀ {u : List α}, u.Nodup → a ∈ u → (∀ x ∈ u, x ≠ a → f2 x = f x) →
      d ∉ u.map f → (u.map f2).count d = 1 := by
  intro u
  induction u with
  | nil => intro _ h; cases h
  | cons x t ih =>
    intro hnd hmem hagree hdf
    have hxt : x ∉ t := (List.nodup_cons.1 hnd).1
    have hdft : d ∉ t.map f := fun h => hdf (List.mem_cons_of_mem _ h)
    rcases List.mem_cons.1 hmem with rfl | hmt
    · have hmc : t.map f2 = t.map f := List.map_congr_left fun y hy =>
        hagree y (List.mem_cons_of_mem _ hy) (fun h => hxt (h ▸ hy))
      simp only [List.map_cons, hfa, List.count_cons_self, hmc]
      rw [List.count_eq_zero_of_not_mem hdft]
    · have hxa : x ≠ a := fun h => hxt (h ▸ hmt)
      have hfx : f2 x = f x := hagree x (List.mem_cons_self x t) hxa
      have hxd : f x ≠ d := fun h => hdf (by simp [List.map_cons, h])
      simp only [List.map_cons, hfx, List.count_cons_of_ne (fun h => hxd h.symm)]
      exact ih (List.nodup_cons.1 hnd).2 hmt
        (fun y hy hya => hagree y (List.mem_cons_of_mem _ hy) hya) hdft

/-- Setting index `i` and reading it back (in range). -/
theorem getD_set_eq {α : Type} (d : α) :
    ∀ (l : List α) (i : Nat) (a : α), i < l.length → (l.set i a).getD i d = a := by
  intro l
  induction l with
  | nil => intro i a h; cases h
  | cons x t ih =>
    intro i a h
    cases i with
    | zero => rfl
    | succ j => exact ih j a (Nat.lt_of_succ_lt_succ h)

/-- Setting index `i` does not change reads at other indices. -/
theorem getD_set_ne {α : Type} (d : α) :
    ∀ (l : List α) (i j : Nat) (a : α), i ≠ j → (l.set i a).getD j d = l.getD j d := by
  intro l
  induction l with
  | nil => intro i j a _; cases i <;> rfl
  | cons x t ih =>
    intro i j a hij
    cases i with
    | zero =>
      cases j with
      | zero => exact absurd rfl hij
      | succ j2 => rfl
    | succ i2 =>
      cases j with
      | zero => rfl
      | succ j2 => exact ih i2 j2 a (fun h => hij (by rw [h]))

/-- Reading a mapped list within range. -/
theorem getD_map_lt {α β : Type} (f : α → β) (d1 : α) (d2 : β) :
    ∀ (l : List α) (i : Nat), i < l.length → (l.map f).getD i d2 = f (l.getD i d1) := by
  intro l
  induction l with
  | nil => intro i h; cases h
  | cons x t ih =>
    intro i h
    cases i with
    | zero => rfl
    | succ j => exact ih j (Nat.lt_of_succ_lt_succ h)

/-- An in-range default read is a member. -/
theorem getD_mem_lt {α : Type} (d : α) :
    ∀ (l : List α) (i : Nat), i < l.length → l.getD i d ∈ l := by
  intro l
  induction l with
  | nil => intro i h; cases h
  | cons x t ih =>
    intro i h
    cases i with
    | zero => exact List.mem_cons_self x t
    | succ j => exact List.mem_cons_of_mem x (ih j (Nat.lt_of_succ_lt_succ h))

/-- When a Boolean list holds `true` exactly once, `index(True)` is in range
and points at a `true` entry. -/
theorem indexOf_true_of_count :
    ∀ {l : List Bool}, l.count true = 1 →
      l.indexOf true < l.length ∧ l.getD (l.indexOf true) false = true := by
  intro l
  induction l with
  | nil => intro h; simp at h
  | cons b t ih =>
    intro h
    cases b with
    | false =>
      have h2 : t.count true = 1 := by
        simpa [List.count_cons] using h
      obtain ⟨h3, h4⟩ := ih h2
      refine ⟨?_, ?_⟩
      · simpa [List.indexOf_cons] using Nat.succ_lt_succ h3
      · simpa [List.indexOf_cons] using h4
    | true =>
      refine ⟨?_, ?_⟩
      · simp [List.indexOf_cons]
      · simp [List.indexOf_cons]

/-- Digit membership is the interval 1..9. -/
theorem mem_digits {n : Nat} : n ∈ digits ↔ 1 ≤ n ∧ n ≤ 9 := by
  simp [digits]
  omega

/-! ### Grid update lemmas -/

/-- A well-formed grid has 9 rows. -/
theorem wf_length {g : Grid} (hwf : wellFormed g = true) : g.length = 9 := by
  simp only [wellFormed, Bool.and_eq_true, decide_eq_true_eq] at hwf
  exact hwf.1

/-- Every row of a well-formed grid has 9 entries. -/
theorem wf_rows {g : Grid} (hwf : wellFormed g = true) :
    ∀ row ∈ g, row.length = 9 := by
  simp only [wellFormed, Bool.and_eq_true, List.all_eq_true, decide_eq_true_eq] at hwf
  exact hwf.2

/-- The row read by `getD` is in range for a well-formed grid. -/
theorem wf_row_length {g : Grid} (hwf : wellFormed g = true) {r : Nat} (hr : r < 9) :
    (g.getD r []).length = 9 := by
  have hlen : r < g.length := by rw [wf_length hwf]; exact hr
  apply wf_rows hwf
  exact getD_mem_lt [] g r hlen

/-- The content of the grid after one cell write: the written cell holds the
new value, every other cell is unchanged. -/
theorem getCell_setCell {g : Grid} (hwf : wellFormed g = true) {r c : Nat}
    (hr : r < 9) (hc : c < 9) (v : Nat) (x y : Nat) :
    getCell (setCell g r c v) x y = if x = r ∧ y = c then v else getCell g x y := by
  have hrg : r < g.length := by rw [wf_length hwf]; exact hr
  have hcg : c < (g.getD r []).length := by rw [wf_row_length hwf hr]; exact hc
  unfold getCell setCell
  by_cases hx : x = r
  · subst hx
    rw [getD_set_eq [] g x ((g.getD x []).set c v) hrg]
    by_cases hy : y = c
    · subst hy
      rw [getD_set_eq 0 (g.getD x []) y v hcg, if_pos ⟨rfl, rfl⟩]
    · rw [getD_set_ne 0 (g.getD x []) c y v (fun h => hy h.symm),
        if_neg (fun h => hy h.2)]
  · rw [getD_set_ne [] g r x ((g.getD r []).set c v) (fun h => hx h.symm),
      if_neg (fun h => hx h.1)]

/-- Writing one cell preserves the 9 by 9 shape. -/
theorem wellFormed_setCell {g : Grid} (hwf : wellFormed g = true) (r c v : Nat) :
    wellFormed (setCell g r c v) = true := by
  simp only [wellFormed, Bool.and_eq_true, List.all_eq_true, decide_eq_true_eq]
  constructor
  · rw [setCell, List.length_set]
    exact wf_length hwf
  · intro row hrow
    have hrow0 := hrow
    rcases List.mem_or_eq_of_mem_set hrow with h | rfl
    · exact wf_rows hwf row h
    · by_cases hr : r < 9
      · rw [List.length_set]
        exact wf_row_length hwf hr
      · have hge : g.length ≤ r := by rw [wf_length hwf]; omega
        rw [setCell, List.set_eq_of_length_le hge] at hrow0
        exact wf_rows hwf _ hrow0

/-! ### Counting unknown cells -/

/-- The 81 coordinates are pairwise distinct. -/
theorem allCells_nodup : allCells.Nodup := by decide

/-- Coordinate membership in the 9 by 9 cell list. -/
theorem mem_allCells {r c : Nat} : (r, c) ∈ allCells ↔ r < 9 ∧ c < 9 := by
  simp only [allCells, List.mem_flatMap, List.mem_map, List.mem_range, Prod.mk.injEq]
  constructor
  · rintro ⟨a, ha, b, hb, rfl, rfl⟩
    exact ⟨ha, hb⟩
  · rintro ⟨hr, hc⟩
    exact ⟨r, hr, c, hc, rfl, rfl⟩

/-- At most 81 cells are unknown. -/
theorem countZeros_le (g : Grid) : countZeros g ≤ 81 := by
  have h := List.countP_le_length (l := allCells)
    (p := fun p => decide (getCell g p.1 p.2 = 0))
  simpa [countZeros] using h

/-- A zero cell in range makes the zero count positive. -/
theorem countZeros_pos {g : Grid} {r c : Nat} (hr : r < 9) (hc : c < 9)
    (hz : getCell g r c = 0) : 0 < countZeros g := by
  rw [countZeros, List.countP_pos_iff]
  exact ⟨(r, c), mem_allCells.2 ⟨hr, hc⟩, by simpa using hz⟩

/-- Placing a nonzero digit into a zero cell decrements the zero count. -/
theorem countZeros_setCell {g : Grid} {r c d : Nat} (hwf : wellFormed g = true)
    (hr : r < 9) (hc : c < 9) (hz : getCell g r c = 0) (hd : d ≠ 0) :
    countZeros (setCell g r c d) + 1 = countZeros g := by
  have hget := getCell_setCell hwf hr hc d
  apply countP_flip allCells_nodup (mem_allCells.2 ⟨hr, hc⟩)
  · simpa using hz
  · have : getCell (setCell g r c d) r c = d := by rw [hget r c, if_pos ⟨rfl, rfl⟩]
    simpa [this] using hd
  · rintro ⟨x, y⟩ _ hxy
    have : getCell (setCell g r c d) x y = getCell g x y := by
      rw [hget x y, if_neg]
      rintro ⟨rfl, rfl⟩
      exact hxy rfl
    simp [this]

/-- Placing a nonzero digit into a zero cell increments the nonzero count. -/
theorem countNonZero_setCell {g : Grid} {r c d : Nat} (hwf : wellFormed g = true)
    (hr : r < 9) (hc : c < 9) (hz : getCell g r c = 0) (hd : d ≠ 0) :
    countNonZero (setCell g r c d) = countNonZero g + 1 := by
  have hget := getCell_setCell hwf hr hc d
  symm
  apply countP_flip allCells_nodup (mem_allCells.2 ⟨hr, hc⟩)
  · have : getCell (setCell g r c d) r c = d := by rw [hget r c, if_pos ⟨rfl, rfl⟩]
    simpa [this] using hd
  · simp [hz]
  · rintro ⟨x, y⟩ _ hxy
    have : getCell (setCell g r c d) x y = getCell g x y := by
      rw [hget x y, if_neg]
      rintro ⟨rfl, rfl⟩
      exact hxy rfl
    simp [this]

/-! ### What a found placement means -/

/-- A candidate digit lies in 1..9 and is absent from the row, the column
and the region of its cell. -/
theorem candidates_mem {g : Grid} {r c n : Nat} (h : n ∈ candidates g r c) :
    (1 ≤ n ∧ n ≤ 9) ∧ n ∉ unitVals g (rowCells r) ∧ n ∉ unitVals g (colCells c) ∧
      n ∉ unitVals g (boxCellsAt r c) := by
  obtain ⟨hd, hp⟩ := List.mem_filter.1 h
  have hnot := of_decide_eq_true hp
  push_neg at hnot
  exact ⟨mem_digits.1 hd, hnot⟩

/-- A candidate digit is nonzero. -/
theorem candidates_ne_zero {g : Grid} {r c n : Nat} (h : n ∈ candidates g r c) : n ≠ 0 := by
  have := (candidates_mem h).1.1
  omega

/-- What the naked-single scan reports: a void in-range cell whose
candidate list is exactly the singleton of the placed digit. -/
theorem findNaked_spec {g : Grid} {r c d : Nat} (h : findNaked g = some (r, c, d)) :
    r < 9 ∧ c < 9 ∧ getCell g r c = 0 ∧ candidates g r c = [d] := by
  unfold findNaked at h
  obtain ⟨r0, hr0, h1⟩ := List.exists_of_findSome?_eq_some h
  obtain ⟨c0, hc0, h2⟩ := List.exists_of_findSome?_eq_some h1
  unfold nakedAt at h2
  split at h2
  · cases h2
  · split at h2
    next d0 heq =>
      obtain ⟨rfl, rfl, rfl⟩ : r0 = r ∧ c0 = c ∧ d0 = d := by
        simpa [Prod.ext_iff] using h2
      refine ⟨List.mem_range.1 hr0, List.mem_range.1 hc0, by omega, heq⟩
    next => cases h2

/-- Reading the materialized table at an in-range cell gives that cell's
valid-digit list. -/
theorem vdAt_vdTable {g : Grid} {r c : Nat} (hr : r < 9) (hc : c < 9) :
    vdAt (vdTable g) r c = vd g r c := by
  rw [vdTable, vdAt]
  rw [getD_map_lt _ 0 [] (List.range 9) r (by simpa using hr)]
  rw [getD_map_lt _ 0 [] (List.range 9) c (by simpa using hc)]
  rw [List.getD_eq_getElem?_getD, List.getElem?_range hr,
    List.getD_eq_getElem?_getD, List.getElem?_range hc]
  rfl

/-- What a hidden-single hit of one digit means: the digit really is in the
table entry of the chosen cell of the unit. -/
theorem hiddenDigitAt_spec {t : VDTable} {u : List (Nat × Nat)} {r c d e : Nat}
    (h : hiddenDigitAt t u d = some (r, c, e)) :
    e = d ∧ (r, c) ∈ u ∧ d ∈ vdAt t r c := by
  unfold hiddenDigitAt at h
  split at h
  next hcount =>
    obtain ⟨hr, hc, he⟩ : (hiddenCell t u d).1 = r ∧ (hiddenCell t u d).2 = c ∧ d = e := by
      simpa [Prod.ext_iff] using h
    obtain ⟨hlt, htrue⟩ := indexOf_true_of_count hcount
    have hul : (presList t u d).length = u.length := by
      rw [presList, List.length_map]
    have hlt2 : (presList t u d).indexOf true < u.length := by omega
    set i := (presList t u d).indexOf true with hi
    have hread : (presList t u d).getD i false =
        decide (d ∈ vdAt t (u.getD i (0, 0)).1 (u.getD i (0, 0)).2) := by
      rw [presList, getD_map_lt _ (0, 0) false u i hlt2]
    have hmemvd : d ∈ vdAt t (u.getD i (0, 0)).1 (u.getD i (0, 0)).2 := by
      apply of_decide_eq_true
      rw [← hread]
      exact htrue
    have hcell : hiddenCell t u d = u.getD i (0, 0) := by
      rw [hiddenCell]
    have humem : u.getD i (0, 0) ∈ u := getD_mem_lt (0, 0) u i hlt2
    have hpair : (r, c) = u.getD i (0, 0) := by
      rw [← hcell, ← hr, ← hc]
    refine ⟨he.symm, ?_, ?_⟩
    · rw [hpair]
      exact humem
    · rw [← hpair] at hmemvd
      exact hmemvd
  next => cases h

/-- What a hidden-single hit of a unit means. -/
theorem hiddenInUnit_spec {t : VDTable} {u : List (Nat × Nat)} {r c d : Nat}
    (h : hiddenInUnit t u = some (r, c, d)) :
    (r, c) ∈ u ∧ d ∈ vdAt t r c := by
  unfold hiddenInUnit at h
  obtain ⟨d0, _, hat⟩ := List.exists_of_findSome?_eq_some h
  obtain ⟨rfl, hmem, hmemvd⟩ := hiddenDigitAt_spec hat
  exact ⟨hmem, hmemvd⟩

/-- A digit in a valid-digit table entry of an in-range cell is a candidate
of a void cell. -/
theorem vdAt_vdTable_mem {g : Grid} {r c d : Nat} (hr : r < 9) (hc : c < 9)
    (h : d ∈ vdAt (vdTable g) r c) : getCell g r c = 0 ∧ d ∈ candidates g r c := by
  rw [vdAt_vdTable hr hc, vd] at h
  split at h
  · cases h
  next hz =>
    exact ⟨by omega, h⟩

/-- Cells of a row unit. -/
theorem rowCells_mem {r x y : Nat} (h : (x, y) ∈ rowCells r) : x = r ∧ y < 9 := by
  simp only [rowCells, List.mem_map, List.mem_range, Prod.mk.injEq] at h
  obtain ⟨c0, hc0, he1, he2⟩ := h
  omega

/-- Cells of a column unit. -/
theorem colCells_mem {c x y : Nat} (h : (x, y) ∈ colCells c) : y = c ∧ x < 9 := by
  simp only [colCells, List.mem_map, List.mem_range, Prod.mk.injEq] at h
  obtain ⟨r0, hr0, he1, he2⟩ := h
  omega

/-- A region unit containing a cell is the region of that cell. -/
theorem boxUnits_mem {u : List (Nat × Nat)} (hu : u ∈ boxUnits) {x y : Nat}
    (h : (x, y) ∈ u) : x < 9 ∧ y < 9 ∧ u = boxCellsAt x y := by
  simp only [boxUnits, List.mem_flatMap, List.mem_map, List.mem_range] at hu
  obtain ⟨bi, hbi, bj, hbj, rfl⟩ := hu
  simp only [boxCellsAt, List.mem_flatMap, List.mem_map, List.mem_range,
    Prod.mk.injEq] at h
  obtain ⟨i, hi, j, hj, hx, hy⟩ := h
  have hxb : x / 3 = bi := by omega
  have hyb : y / 3 = bj := by omega
  refine ⟨by omega, by omega, ?_⟩
  simp only [boxCellsAt, hxb, hyb]
  have h3bi : 3 * bi / 3 = bi := by omega
  have h3bj : 3 * bj / 3 = bj := by omega
  rw [h3bi, h3bj]

/-- The 27 units, destructured. -/
theorem mem_allUnits_cases {u : List (Nat × Nat)} (hu : u ∈ allUnits) :
    (∃ r0, r0 < 9 ∧ u = rowCells r0) ∨ (∃ c0, c0 < 9 ∧ u = colCells c0) ∨
      u ∈ boxUnits := by
  simp only [allUnits, List.mem_append, List.mem_map, List.mem_range] at hu
  rcases hu with (⟨r0, hr0, rfl⟩ | ⟨c0, hc0, rfl⟩) | hb
  · exact Or.inl ⟨r0, hr0, rfl⟩
  · exact Or.inr (Or.inl ⟨c0, hc0, rfl⟩)
  · exact Or.inr (Or.inr hb)

/-- Every unit is a duplicate-free list of cells. -/
theorem allUnits_nodup : ∀ u ∈ allUnits, u.Nodup := by decide

/-- What a hit of the hidden cascade over the round table means: an
in-range void cell and a digit from its candidate list. -/
theorem findHidden_spec {g : Grid} {r c d : Nat}
    (h : findHidden (vdTable g) = some (r, c, d)) :
    r < 9 ∧ c < 9 ∧ getCell g r c = 0 ∧ d ∈ candidates g r c := by
  rw [findHidden] at h
  split at h
  next p heq =>
    obtain rfl : p = (r, c, d) := by simpa using h
    obtain ⟨r0, _, hin⟩ := List.exists_of_findSome?_eq_some heq
    obtain ⟨hmem, hvd⟩ := hiddenInUnit_spec hin
    obtain ⟨rfl, hc⟩ := rowCells_mem hmem
    have hr : r < 9 := List.mem_range.1 (by assumption)
    obtain ⟨hz, hcand⟩ := vdAt_vdTable_mem hr hc hvd
    exact ⟨hr, hc, hz, hcand⟩
  next =>
    split at h
    next p heq =>
      obtain rfl : p = (r, c, d) := by simpa using h
      obtain ⟨c0, _, hin⟩ := List.exists_of_findSome?_eq_some heq
      obtain ⟨hmem, hvd⟩ := hiddenInUnit_spec hin
      obtain ⟨rfl, hr⟩ := colCells_mem hmem
      have hc : c < 9 := List.mem_range.1 (by assumption)
      obtain ⟨hz, hcand⟩ := vdAt_vdTable_mem hr hc hvd
      exact ⟨hr, hc, hz, hcand⟩
    next =>
      obtain ⟨u, hu, hin⟩ := List.exists_of_findSome?_eq_some h
      obtain ⟨hmem, hvd⟩ := hiddenInUnit_spec hin
      obtain ⟨hr, hc, -⟩ := boxUnits_mem hu hmem
      obtain ⟨hz, hcand⟩ := vdAt_vdTable_mem hr hc hvd
      exact ⟨hr, hc, hz, hcand⟩

/-- What any reported placement means: an in-range void cell and a digit
from its candidate list. -/
theorem findPlacement_spec {g : Grid} {r c d : Nat}
    (h : findPlacement g = some (r, c, d)) :
    r < 9 ∧ c < 9 ∧ getCell g r c = 0 ∧ d ∈ candidates g r c := by
  rw [findPlacement] at h
  split at h
  next p heq =>
    obtain rfl : p = (r, c, d) := by simpa using h
    obtain ⟨hr, hc, hz, hcand⟩ := findNaked_spec heq
    exact ⟨hr, hc, hz, by rw [hcand]; exact List.mem_singleton_self d⟩
  next => exact findHidden_spec h

/-! ### Preservation of unit consistency -/

/-- Reading off the consistency Boolean. -/
theorem consistent_spec {g : Grid} (h : consistent g = true) :
    ∀ u ∈ allUnits, ∀ e ∈ digits, (unitVals g u).count e ≤ 1 := by
  simp only [consistent, List.all_eq_true, decide_eq_true_eq] at h
  exact h

/-- Placing a candidate digit into its void cell keeps every unit free of
duplicated nonzero digits. -/
theorem place_consistent {g : Grid} {r c d : Nat} (hwf : wellFormed g = true)
    (hcons : consistent g = true) (hr : r < 9) (hc : c < 9)
    (hz : getCell g r c = 0) (hcand : d ∈ candidates g r c) :
    consistent (setCell g r c d) = true := by
  obtain ⟨-, hnr, hnc, hnb⟩ := candidates_mem hcand
  have hget := getCell_setCell hwf hr hc d
  have hdz : d ≠ 0 := candidates_ne_zero hcand
  rw [consistent, List.all_eq_true]
  intro u hu
  rw [List.all_eq_true]
  intro e he
  rw [decide_eq_true_eq]
  have hagree : ∀ x ∈ u, x ≠ (r, c) →
      getCell (setCell g r c d) x.1 x.2 = getCell g x.1 x.2 := by
    rintro ⟨x1, x2⟩ _ hxy
    rw [hget x1 x2, if_neg]
    rintro ⟨rfl, rfl⟩
    exact hxy rfl
  by_cases hmem : (r, c) ∈ u
  · -- the modified cell lies in this unit, which must then be the row, the
    -- column or the region of the cell, so `d` was absent from it
    have hdnot : d ∉ unitVals g u := by
      rcases mem_allUnits_cases hu with ⟨r0, _, rfl⟩ | ⟨c0, _, rfl⟩ | hb
      · obtain ⟨rfl, -⟩ := rowCells_mem hmem
        exact hnr
      · obtain ⟨rfl, -⟩ := colCells_mem hmem
        exact hnc
      · obtain ⟨-, -, rfl⟩ := boxUnits_mem hb hmem
        exact hnb
    have hnodup : u.Nodup := allUnits_nodup u hu
    have hfa : getCell (setCell g r c d) r c = d := by
      rw [hget r c, if_pos ⟨rfl, rfl⟩]
    by_cases hed : e = d
    · rw [hed]
      have h1 := @count_map_self (Nat × Nat) (fun p => getCell g p.1 p.2)
        (fun p => getCell (setCell g r c d) p.1 p.2) (r, c) d hfa u
        hnodup hmem hagree hdnot
      exact le_of_eq h1
    · have hle := @count_map_ne (Nat × Nat) (fun p => getCell g p.1 p.2)
        (fun p => getCell (setCell g r c d) p.1 p.2) (r, c) e
        (by show getCell (setCell g r c d) r c ≠ e
            rw [hfa]
            exact fun h => hed h.symm) u hnodup hagree
      exact le_trans hle (consistent_spec hcons u hu e he)
  · have hsame : unitVals (setCell g r c d) u = unitVals g u :=
      List.map_congr_left fun x hx => hagree x hx (fun hxe => hmem (hxe ▸ hx))
    rw [hsame]
    exact consistent_spec hcons u hu e he

/-! ### Solver-level inductions -/

/-- One unfolding of the fuelled recursion. -/
theorem solveAux_succ (n : Nat) (g : Grid) :
    solveAux (n + 1) g =
      if isFull g then some (some g, g)
      else
        match findPlacement g with
        | some (r, c, d) => solveAux n (setCell g r c d)
        | none => some (none, g) := rfl

/-- Any state the fuelled solver can return from a well-formed consistent
grid is again well-formed and consistent. -/
theorem solveAux_consistent :
    ∀ (fuel : Nat) (g : Grid), wellFormed g = true → consistent g = true →
      ∀ res st, solveAux fuel g = some (res, st) →
        consistent st = true ∧ wellFormed st = true := by
  intro fuel
  induction fuel with
  | zero => intro g _ _ res st h; cases h
  | succ n ih =>
    intro g hwf hcons res st h
    rw [solveAux_succ] at h
    by_cases hf : isFull g = true
    · rw [if_pos hf] at h
      obtain ⟨rfl, rfl⟩ : res = some g ∧ st = g := by simpa using h.symm
      exact ⟨hcons, hwf⟩
    · rw [if_neg hf] at h
      cases hp : findPlacement g with
      | some p =>
        obtain ⟨r, c, d⟩ := p
        rw [hp] at h
        obtain ⟨hr, hc, hz, hcand⟩ := findPlacement_spec hp
        exact ih (setCell g r c d) (wellFormed_setCell hwf r c d)
          (place_consistent hwf hcons hr hc hz hcand) res st h
      | none =>
        rw [hp] at h
        obtain ⟨rfl, rfl⟩ : res = none ∧ st = g := by simpa using h.symm
        exact ⟨hcons, hwf⟩

/-- A successful result of the fuelled solver is always a full grid. -/
theorem solveAux_solved :
    ∀ (fuel : Nat) (g : Grid) (res : Option Grid) (st g2 : Grid),
      solveAux fuel g = some (res, st) → res = some g2 → isFull g2 = true := by
  intro fuel
  induction fuel with
  | zero => intro g res st g2 h; cases h
  | succ n ih =>
    intro g res st g2 h hres
    rw [solveAux_succ] at h
    by_cases hf : isFull g = true
    · rw [if_pos hf] at h
      injection h with h1
      injection h1 with h2 h3
      rw [← h2] at hres
      injection hres with h4
      rw [← h4]
      exact hf
    · rw [if_neg hf] at h
      cases hp : findPlacement g with
      | some p =>
        obtain ⟨r, c, d⟩ := p
        rw [hp] at h
        exact ih (setCell g r c d) res st g2 h hres
      | none =>
        rw [hp] at h
        injection h with h1
        injection h1 with h2 h3
        rw [← h2] at hres
        cases hres

/-- With fuel at least the number of unknown cells, the exact amount of
fuel is irrelevant: the recursion ends before running out. -/
theorem solveAux_fuel_eq :
    ∀ (n : Nat) (g : Grid), wellFormed g = true → countZeros g ≤ n →
      solveAux (n + 1) g = solveAux (countZeros g + 1) g := by
  intro n
  induction n with
  | zero =>
    intro g _ hcz
    have : countZeros g = 0 := by omega
    rw [this]
  | succ n ih =>
    intro g hwf hcz
    by_cases hf : isFull g = true
    · rw [solveAux_succ, if_pos hf, solveAux_succ, if_pos hf]
    · cases hp : findPlacement g with
      | some p =>
        obtain ⟨r, c, d⟩ := p
        obtain ⟨hr, hc, hz, hcand⟩ := findPlacement_spec hp
        have hdz : d ≠ 0 := candidates_ne_zero hcand
        have hdec : countZeros (setCell g r c d) + 1 = countZeros g :=
          countZeros_setCell hwf hr hc hz hdz
        have hwf2 : wellFormed (setCell g r c d) = true := wellFormed_setCell hwf r c d
        have hle : countZeros (setCell g r c d) ≤ n := by omega
        rw [solveAux_succ, if_neg hf, hp]
        rw [show countZeros g + 1 = (countZeros (setCell g r c d) + 1) + 1 by omega]
        rw [solveAux_succ, if_neg hf, hp]
        exact ih (setCell g r c d) hwf2 hle
      | none =>
        rw [solveAux_succ, if_neg hf, hp, solveAux_succ, if_neg hf, hp]

/-- With fuel above the number of unknown cells the fuelled solver always
returns. -/
theorem solveAux_returns :
    ∀ (n : Nat) (g : Grid), wellFormed g = true → countZeros g ≤ n →
      (solveAux (n + 1) g).isSome = true := by
  intro n
  induction n with
  | zero =>
    intro g hwf hcz
    rw [solveAux_succ]
    by_cases hf : isFull g = true
    · rw [if_pos hf]; rfl
    · rw [if_neg hf]
      cases hp : findPlacement g with
      | some p =>
        obtain ⟨r, c, d⟩ := p
        obtain ⟨hr, hc, hz, hcand⟩ := findPlacement_spec hp
        exact absurd (countZeros_pos hr hc hz) (by omega)
      | none => rfl
  | succ n ih =>
    intro g hwf hcz
    rw [solveAux_succ]
    by_cases hf : isFull g = true
    · rw [if_pos hf]; rfl
    · rw [if_neg hf]
      cases hp : findPlacement g with
      | some p =>
        obtain ⟨r, c, d⟩ := p
        obtain ⟨hr, hc, hz, hcand⟩ := findPlacement_spec hp
        have hdec : countZeros (setCell g r c d) + 1 = countZeros g :=
          countZeros_setCell hwf hr hc hz (candidates_ne_zero hcand)
        exact ih (setCell g r c d) (wellFormed_setCell hwf r c d) (by omega)
      | none => rfl

/-- One successful round advances `solveRun`: the run on the grid equals
the run on the grid with the placement applied. -/
theorem solveRun_step {g : Grid} {r c d : Nat} (hwf : wellFormed g = true)
    (hnf : isFull g = false) (hp : findPlacement g = some (r, c, d)) :
    solveRun g = solveRun (setCell g r c d) := by
  obtain ⟨hr, hc, hz, hcand⟩ := findPlacement_spec hp
  have hdec := countZeros_setCell hwf hr hc hz (candidates_ne_zero hcand)
  have hwf2 := wellFormed_setCell hwf r c d
  have hs := solveAux_returns (countZeros (setCell g r c d)) (setCell g r c d)
    hwf2 (Nat.le_refl _)
  obtain ⟨val, hval⟩ := Option.isSome_iff_exists.1 hs
  rw [solveRun, solveRun, ← hdec, solveAux_succ, if_neg (by simp [hnf])]
  simp only [hp]
  rw [hval]
  rfl

/-- The same step with the resulting grid given explicitly. -/
theorem solveRun_step2 (g g2 : Grid) (r c d : Nat) (hwf : wellFormed g = true)
    (hnf : isFull g = false) (hp : findPlacement g = some (r, c, d))
    (hg2 : setCell g r c d = g2) : solveRun g = solveRun g2 :=
  hg2 ▸ solveRun_step hwf hnf hp

/-! ### The Python-level run with the numpy collapse -/

/-- One unfolding of the Python-level recursion. -/
theorem solveAuxP_succ (n : Nat) (g : Grid) :
    solveAuxP (n + 1) g =
      if isFull g then some (PyResult.returns (some g) g)
      else
        match findNaked g with
        | some (r, c, d) => solveAuxP n (setCell g r c d)
        | none =>
          if vdCollapses (vdTable g) then some (PyResult.typeError g)
          else
            match findHidden (vdTable g) with
            | some (r, c, d) => solveAuxP n (setCell g r c d)
            | none => some (PyResult.returns none g) := rfl

/-- A grid with one given digit in range never collapses the table: the
candidate list of the non-void cell is empty while a collapse needs one
common nonzero length across all 81 lists. -/
theorem vdCollapses_false {g : Grid} {r c : Nat} (hr : r < 9) (hc : c < 9)
    (hnz : getCell g r c ≠ 0) : vdCollapses (vdTable g) = false := by
  rw [← Bool.not_eq_true]
  intro hcol
  rw [vdCollapses, Bool.and_eq_true, List.all_eq_true] at hcol
  obtain ⟨hall, hhd⟩ := hcol
  have hvd : vd g r c = [] := by rw [vd, if_pos hnz]
  have hrow : (List.range 9).map (fun c2 => vd g r c2) ∈ vdTable g := by
    rw [vdTable]
    exact List.mem_map.2 ⟨r, List.mem_range.2 hr, rfl⟩
  have hmem : vd g r c ∈ (List.range 9).map fun c2 => vd g r c2 :=
    List.mem_map.2 ⟨c, List.mem_range.2 hc, rfl⟩
  have hflat : vd g r c ∈ (vdTable g).flatten :=
    List.mem_flatten.2 ⟨_, hrow, hmem⟩
  have hzero : (0 : Nat) ∈ vdLengths (vdTable g) := by
    rw [vdLengths]
    refine List.mem_map.2 ⟨vd g r c, hflat, ?_⟩
    rw [hvd]
    rfl
  have := of_decide_eq_true (hall 0 hzero)
  rw [decide_eq_true_eq] at hhd
  omega

/-- On every well-formed grid holding at least one given digit, the
Python-level run raises nothing and agrees with the tagged-result model,
fuel for fuel. -/
theorem solveAuxP_eq_solveAux :
    ∀ (fuel : Nat) (g : Grid) (r0 c0 : Nat), wellFormed g = true →
      r0 < 9 → c0 < 9 → getCell g r0 c0 ≠ 0 →
      solveAuxP fuel g =
        (solveAux fuel g).map fun p => PyResult.returns p.1 p.2 := by
  intro fuel
  induction fuel with
  | zero => intro g r0 c0 _ _ _ _; rfl
  | succ n ih =>
    intro g r0 c0 hwf hr0 hc0 hnz
    rw [solveAuxP_succ, solveAux_succ]
    by_cases hf : isFull g = true
    · rw [if_pos hf, if_pos hf]
      rfl
    · rw [if_neg hf, if_neg hf]
      cases hn : findNaked g with
      | some p =>
        obtain ⟨r, c, d⟩ := p
        have hp : findPlacement g = some (r, c, d) := by
          rw [findPlacement, hn]
        obtain ⟨hr, hc, hz, hcand⟩ := findNaked_spec hn
        have hd : d ≠ 0 := by
          have : d ∈ candidates g r c := by
            rw [hcand]
            exact List.mem_singleton_self d
          exact candidates_ne_zero this
        have hnew : getCell (setCell g r c d) r c ≠ 0 := by
          rw [getCell_setCell hwf hr hc d r c, if_pos ⟨rfl, rfl⟩]
          exact hd
        simp only [hp]
        exact ih (setCell g r c d) r c (wellFormed_setCell hwf r c d) hr hc hnew
      | none =>
        have hp0 : findPlacement g = findHidden (vdTable g) := by
          rw [findPlacement, hn]
        rw [if_neg (by simp [vdCollapses_false hr0 hc0 hnz])]
        cases hh : findHidden (vdTable g) with
        | some p =>
          obtain ⟨r, c, d⟩ := p
          have hp : findPlacement g = some (r, c, d) := by rw [hp0, hh]
          obtain ⟨hr, hc, hz, hcand⟩ := findHidden_spec hh
          have hnew : getCell (setCell g r c d) r c ≠ 0 := by
            rw [getCell_setCell hwf hr hc d r c, if_pos ⟨rfl, rfl⟩]
            exact candidates_ne_zero hcand
          simp only [hp]
          exact ih (setCell g r c d) r c (wellFormed_setCell hwf r c d) hr hc hnew
        | none =>
          have hp : findPlacement g = none := by rw [hp0, hh]
          simp only [hp]
          rfl

/-- Whenever the Python-level run returns a grid as a success value, that
grid holds no zero (the only success exit is the initial full check). -/
theorem solveAuxP_solved :
    ∀ (fuel : Nat) (g : Grid) (res : Option Grid) (st g2 : Grid),
      solveAuxP fuel g = some (PyResult.returns res st) → res = some g2 →
      isFull g2 = true := by
  intro fuel
  induction fuel with
  | zero => intro g res st g2 h; cases h
  | succ n ih =>
    intro g res st g2 h hres
    rw [solveAuxP_succ] at h
    by_cases hf : isFull g = true
    · rw [if_pos hf] at h
      injection h with h1
      injection h1 with h2 h3
      rw [← h2] at hres
      injection hres with h4
      rw [← h4]
      exact hf
    · rw [if_neg hf] at h
      cases hn : findNaked g with
      | some p =>
        obtain ⟨r, c, d⟩ := p
        rw [hn] at h
        exact ih (setCell g r c d) res st g2 h hres
      | none =>
        rw [hn] at h
        by_cases hcol : vdCollapses (vdTable g) = true
        · rw [if_pos hcol] at h
          injection h with h1
          cases h1
        · rw [if_neg hcol] at h
          cases hh : findHidden (vdTable g) with
          | some p =>
            obtain ⟨r, c, d⟩ := p
            rw [hh] at h
            exact ih (setCell g r c d) res st g2 h hres
          | none =>
            rw [hh] at h
            injection h with h1
            injection h1 with h2 h3
            rw [← h2] at hres
            cases hres

/-- The naked-single scan picks the head of the naked-single hit list. -/
theorem findNaked_as_list (g : Grid) : findNaked g = (nakedList g).head? := by
  rw [findNaked, nakedList]
  simp only [findSome_as_head]
  rw [head_filterMap_head]

/-- The hidden-single scan of one unit picks the head of its hit list. -/
theorem hiddenInUnit_as_list (t : VDTable) (u : List (Nat × Nat)) :
    hiddenInUnit t u = (hiddenUnitList t u).head? := by
  rw [hiddenInUnit, hiddenUnitList, findSome_as_head]

/-- The row scan picks the head of the row hit list. -/
theorem findHiddenRows_as_list (t : VDTable) :
    findHiddenRows t = (hiddenRowsList t).head? := by
  rw [findHiddenRows, hiddenRowsList]
  simp only [hiddenInUnit_as_list]
  rw [findSome_as_head, head_filterMap_head]

/-- The column scan picks the head of the column hit list. -/
theorem findHiddenCols_as_list (t : VDTable) :
    findHiddenCols t = (hiddenColsList t).head? := by
  rw [findHiddenCols, hiddenColsList]
  simp only [hiddenInUnit_as_list]
  rw [findSome_as_head, head_filterMap_head]

/-- The region scan picks the head of the region hit list. -/
theorem findHiddenBoxes_as_list (t : VDTable) :
    findHiddenBoxes t = (hiddenBoxesList t).head? := by
  rw [findHiddenBoxes, hiddenBoxesList]
  simp only [hiddenInUnit_as_list]
  rw [findSome_as_head, head_filterMap_head]

/-- The hidden cascade picks the head of the concatenated hit lists of
rows, columns and regions. -/
theorem findHidden_as_list (t : VDTable) :
    findHidden t =
      (hiddenRowsList t ++ (hiddenColsList t ++ hiddenBoxesList t)).head? := by
  rw [findHidden]
  rw [List.head?_append, List.head?_append]
  rw [← findHiddenRows_as_list, ← findHiddenCols_as_list, ← findHiddenBoxes_as_list]
  cases findHiddenRows t with
  | some p => rfl
  | none =>
    cases findHiddenCols t with
    | some p => rfl
    | none => rfl

/-- C3 amended: the placement of every round is the first qualifying pair
of the full deterministic traversal: naked singles over cells in row-major
order first; only then hidden singles over rows, then columns, then
regions, ascending unit index, each unit's digits in CPython set-iteration
order (ascending only from five distinct candidate digits up). -/
theorem c3_placement_order : ∀ g : Grid, findPlacement g = (placementScanList g).head? := by
  intro g
  rw [findPlacement, placementScanList]
  rw [List.head?_append]
  rw [← findNaked_as_list, ← findHidden_as_list]
  cases findNaked g with
  | some p => rfl
  | none => rfl

/-- Absence from the row values, cell by cell. -/
theorem not_mem_rowVals {g : Grid} {r n : Nat} :
    n ∉ unitVals g (rowCells r) ↔ ∀ j, j < 9 → getCell g r j ≠ n := by
  rw [unitVals, rowCells]
  simp only [List.map_map, List.mem_map, List.mem_range, Function.comp, not_exists]
  constructor
  · intro h j hj
    have := h j
    simpa [hj] using this
  · intro h j
    intro hc
    exact h j hc.1 hc.2

/-- Absence from the column values, cell by cell. -/
theorem not_mem_colVals {g : Grid} {c n : Nat} :
    n ∉ unitVals g (colCells c) ↔ ∀ i, i < 9 → getCell g i c ≠ n := by
  rw [unitVals, colCells]
  simp only [List.map_map, List.mem_map, List.mem_range, Function.comp, not_exists]
  constructor
  · intro h i hi
    have := h i
    simpa [hi] using this
  · intro h i
    intro hc
    exact h i hc.1 hc.2

/-- Absence from the region values, cell by cell. -/
theorem not_mem_boxVals {g : Grid} {r c n : Nat} :
    n ∉ unitVals g (boxCellsAt r c) ↔
      ∀ i j, i < 3 → j < 3 → getCell g (r / 3 * 3 + i) (c / 3 * 3 + j) ≠ n := by
  rw [unitVals, boxCellsAt]
  simp only [List.map_flatMap, List.map_map, List.mem_flatMap, List.mem_map,
    List.mem_range, Function.comp, not_exists]
  constructor
  · intro h i j hi hj
    intro hc
    exact h i ⟨hi, j, hj, hc⟩
  · rintro h i ⟨hi, j, hj, hc⟩
    exact h i j hi hj hc

/-- C4: from a consistent well-formed grid, every placement of a round
keeps every unit free of duplicate nonzero digits, and so does the final
observable grid state of the whole solve. -/
theorem c4_consistency_invariant : ∀ g : Grid, wellFormed g = true → consistent g = true →
    (∀ r c d, findPlacement g = some (r, c, d) → consistent (setCell g r c d) = true) ∧
    consistent (solveState g) = true := by
  intro g hwf hcons
  constructor
  · intro r c d hp
    obtain ⟨hr, hc, hz, hcand⟩ := findPlacement_spec hp
    exact place_consistent hwf hcons hr hc hz hcand
  · rw [solveState, solveRun]
    cases hs : solveAux (countZeros g + 1) g with
    | none => exact hcons
    | some p =>
      obtain ⟨res, st⟩ := p
      exact (solveAux_consistent (countZeros g + 1) g hwf hcons res st hs).1

/-- C5: a successful round places one nonzero digit into a void cell,
changes no other cell, and raises the filled-cell count by exactly one. -/
theorem c5_monotonic : ∀ (g : Grid) (r c d : Nat), wellFormed g = true →
    findPlacement g = some (r, c, d) →
    getCell g r c = 0 ∧ d ≠ 0 ∧ getCell (setCell g r c d) r c = d ∧
    (∀ x y, getCell g x y ≠ 0 → getCell (setCell g r c d) x y = getCell g x y) ∧
    countNonZero (setCell g r c d) = countNonZero g + 1 := by
  intro g r c d hwf hp
  obtain ⟨hr, hc, hz, hcand⟩ := findPlacement_spec hp
  have hget := getCell_setCell hwf hr hc d
  have hdz := candidates_ne_zero hcand
  refine ⟨hz, hdz, ?_, ?_, ?_⟩
  · rw [hget r c, if_pos ⟨rfl, rfl⟩]
  · intro x y hxy
    rw [hget x y, if_neg]
    rintro ⟨rfl, rfl⟩
    exact hxy hz
  · exact countNonZero_setCell hwf hr hc hz hdz

/-- C2: the result of a returning call is always tagged — a success value
never holds a zero — but the claimed totality fails in the code: on the
valid all-zero grid the call raises TypeError instead of returning either
Solved or the NoProgress sentinel (all 81 candidate lists are 1..9, so
`np.array` collapses them into a `(9, 9, 9)` array and
`set(itertools.chain.from_iterable(...))` iterates bare ints, contrary to
the docstring, which promises `None` for such multi-solution puzzles). -/
theorem c2_crash_and_tagging :
    wellFormed gZero = true ∧
    solveAuxP 82 gZero = some (PyResult.typeError gZero) ∧
    ∀ (fuel : Nat) (g : Grid) (res : Option Grid) (st g2 : Grid),
      solveAuxP fuel g = some (PyResult.returns res st) → res = some g2 →
      isFull g2 = true := by
  refine ⟨by decide, by decide, ?_⟩
  exact solveAuxP_solved

/-- C2 witness: a concrete returning run whose success value is checked
full. -/
theorem c2_crash_witness : isFull gAllOnes = true :=
  c2_crash_and_tagging.2.2 1 gAllOnes (some gAllOnes) gAllOnes gAllOnes (by decide) rfl

/-- C6: the claimed termination bound fails in the code at exactly one
valid input: on the all-zero grid (81 unknowns, consistent) the very first
round raises TypeError out of the call, reaching neither Solved nor
NoProgress.  On every other valid 9 by 9 input — well-formed with at least
one given digit — the Python-level run halts within at most 81 placement
rounds plus the final check (82 units of fuel) and returns exactly the
tagged result of the model, as the docstring promises. -/
theorem c6_crash_and_termination :
    consistent gZero = true ∧ countZeros gZero = 81 ∧
    solveAuxP 82 gZero = some (PyResult.typeError gZero) ∧
    ∀ g : Grid, wellFormed g = true →
      (∃ r c, r < 9 ∧ c < 9 ∧ getCell g r c ≠ 0) →
      solveAuxP 82 g = some (PyResult.returns (solve_puzzle g) (solveState g)) := by
  refine ⟨by decide, by decide, by decide, ?_⟩
  rintro g hwf ⟨r0, c0, hr0, hc0, hnz⟩
  have hbr := solveAuxP_eq_solveAux 82 g r0 c0 hwf hr0 hc0 hnz
  have h81 : countZeros g ≤ 81 := countZeros_le g
  have heq : solveAux 82 g = solveAux (countZeros g + 1) g :=
    solveAux_fuel_eq 81 g hwf h81
  have hs : (solveAux (countZeros g + 1) g).isSome = true :=
    solveAux_returns (countZeros g) g hwf (Nat.le_refl _)
  obtain ⟨res, hres⟩ := Option.isSome_iff_exists.1 hs
  have hrun : solveRun g = res := by
    rw [solveRun, hres]
    rfl
  rw [hbr, heq, hres, solve_puzzle, solveState, hrun]
  rfl

/-- C6 witness: on `gMono` (one given row) the Python-level run returns
the tagged result of the model within the fuel bound. -/
theorem c6_crash_witness :
    solveAuxP 82 gMono = some (PyResult.returns (solve_puzzle gMono) (solveState gMono)) :=
  c6_crash_and_termination.2.2.2 gMono (by decide) ⟨0, 0, by decide, by decide, by decide⟩

/-- C7: for a void cell, the candidate list holds exactly the digits 1..9
absent from the row, the column and the region of the cell, and it is
strictly increasing (the computation reads the grid purely; it is a
function of the grid by construction). -/
theorem c7_candidates : ∀ (g : Grid) (r c : Nat), getCell g r c = 0 →
    (∀ n, n ∈ candidates g r c ↔
      (1 ≤ n ∧ n ≤ 9 ∧ (∀ j, j < 9 → getCell g r j ≠ n) ∧
       (∀ i, i < 9 → getCell g i c ≠ n) ∧
       (∀ i j, i < 3 → j < 3 → getCell g (r / 3 * 3 + i) (c / 3 * 3 + j) ≠ n))) ∧
    List.Pairwise (· < ·) (candidates g r c) := by
  intro g r c hz
  constructor
  · intro n
    constructor
    · intro h
      obtain ⟨⟨h1, h2⟩, hnr, hnc, hnb⟩ := candidates_mem h
      exact ⟨h1, h2, not_mem_rowVals.1 hnr, not_mem_colVals.1 hnc, not_mem_boxVals.1 hnb⟩
    · rintro ⟨h1, h2, hr2, hc2, hb2⟩
      rw [candidates, List.mem_filter]
      refine ⟨mem_digits.2 ⟨h1, h2⟩, ?_⟩
      rw [decide_eq_true_eq]
      push_neg
      exact ⟨not_mem_rowVals.2 hr2, not_mem_colVals.2 hc2, not_mem_boxVals.2 hb2⟩
  · exact (by decide : List.Pairwise (· < ·) digits).sublist (List.filter_sublist digits)

/-- C9: a grid with no zero cell is returned as the success value at once,
unchanged, with no consistency check of any kind. -/
theorem c9_full_no_check : ∀ g : Grid, isFull g = true → solveRun g = (some g, g) := by
  intro g hf
  have h1 : solveAux (countZeros g + 1) g = some (some g, g) := by
    rw [solveAux_succ, if_pos hf]
  rw [solveRun, h1]
  rfl

/-- C4 witness: the final state of the solve of `gMono` is consistent. -/
theorem c4_witness : consistent (solveState gMono) = true :=
  (c4_consistency_invariant gMono (by decide) (by decide)).2

/-- C5 witness: the round on `gMono` fills the void cell (0, 8) and raises
the filled-cell count by one. -/
theorem c5_witness :
    getCell gMono 0 8 = 0 ∧
      countNonZero (setCell gMono 0 8 9) = countNonZero gMono + 1 := by
  have h := c5_monotonic gMono 0 8 9 (by decide) (by decide)
  exact ⟨h.1, h.2.2.2.2⟩

/-- C7 witness: at the void cell (0, 8) of `gMono`, the digit 9 is a
candidate (its row holds 1..8 and its column and region are empty). -/
theorem c7_witness : 9 ∈ candidates gMono 0 8 := by
  have h := c7_candidates gMono 0 8 (by decide)
  refine (h.1 9).mpr ⟨by decide, by decide, by decide, by decide, ?_⟩
  intro i j hi hj
  interval_cases i <;> interval_cases j <;> decide

/-- C9 witness: the full grid `gAllOnes` violates the uniqueness constraint
everywhere, yet it is returned unchanged as a success. -/
theorem c9_witness :
    solveRun gAllOnes = (some gAllOnes, gAllOnes) ∧ consistent gAllOnes = false :=
  ⟨c9_full_no_check gAllOnes (by decide), by decide⟩

/-- The 45 propagation rounds of the end-to-end solve, one theorem per
round: each advances `solveRun` across one placement, with the scans
evaluated by the kernel on the explicit intermediate grid. -/
theorem c8_round_01 :
    solveRun
    [[0, 0, 4, 0, 0, 6, 0, 7, 9], [0, 0, 0, 0, 0, 0, 6, 0, 2], [0, 5, 6, 0, 9, 2, 3, 0, 0],
     [0, 7, 8, 0, 6, 1, 0, 3, 0], [5, 0, 9, 0, 0, 0, 4, 0, 6], [0, 2, 0, 5, 4, 0, 8, 9, 0],
     [0, 0, 7, 4, 1, 0, 9, 2, 0], [1, 0, 5, 0, 0, 0, 0, 0, 0], [8, 4, 0, 6, 0, 0, 1, 0, 0]] =
    solveRun
    [[0, 0, 4, 0, 0, 6, 5, 7, 9], [0, 0, 0, 0, 0, 0, 6, 0, 2], [0, 5, 6, 0, 9, 2, 3, 0, 0],
     [0, 7, 8, 0, 6, 1, 0, 3, 0], [5, 0, 9, 0, 0, 0, 4, 0, 6], [0, 2, 0, 5, 4, 0, 8, 9, 0],
     [0, 0, 7, 4, 1, 0, 9, 2, 0], [1, 0, 5, 0, 0, 0, 0, 0, 0], [8, 4, 0, 6, 0, 0, 1, 0, 0]] :=
  solveRun_step2 _ _ 0 6 5 (by decide) (by decide) (by decide) (by decide)

/-- Round 2 of the end-to-end solve: the digit 7 is placed at (2, 0). -/
theorem c8_round_02 :
    solveRun
    [[0, 0, 4, 0, 0, 6, 5, 7, 9], [0, 0, 0, 0, 0, 0, 6, 0, 2], [0, 5, 6, 0, 9, 2, 3, 0, 0],
     [0, 7, 8, 0, 6, 1, 0, 3, 0], [5, 0, 9, 0, 0, 0, 4, 0, 6], [0, 2, 0, 5, 4, 0, 8, 9, 0],
     [0, 0, 7, 4, 1, 0, 9, 2, 0], [1, 0, 5, 0, 0, 0, 0, 0, 0], [8, 4, 0, 6, 0, 0, 1, 0, 0]] =
    solveRun
    [[0, 0, 4, 0, 0, 6, 5, 7, 9], [0, 0, 0, 0, 0, 0, 6, 0, 2], [7, 5, 6, 0, 9, 2, 3, 0, 0],
     [0, 7, 8, 0, 6, 1, 0, 3, 0], [5, 0, 9, 0, 0, 0, 4, 0, 6], [0, 2, 0, 5, 4, 0, 8, 9, 0],
     [0, 0, 7, 4, 1, 0, 9, 2, 0], [1, 0, 5, 0, 0, 0, 0, 0, 0], [8, 4, 0, 6, 0, 0, 1, 0, 0]] :=
  solveRun_step2 _ _ 2 0 7 (by decide) (by decide) (by decide) (by decide)

/-- Round 3 of the end-to-end solve: the digit 4 is placed at (3, 0). -/
theorem c8_round_03 :
    solveRun
    [[0, 0, 4, 0, 0, 6, 5, 7, 9], [0, 0, 0, 0, 0, 0, 6, 0, 2], [7, 5, 6, 0, 9, 2, 3, 0, 0],
     [0, 7, 8, 0, 6, 1, 0, 3, 0], [5, 0, 9, 0, 0, 0, 4, 0, 6], [0, 2, 0, 5, 4, 0, 8, 9, 0],
     [0, 0, 7, 4, 1, 0, 9, 2, 0], [1, 0, 5, 0, 0, 0, 0, 0, 0], [8, 4, 0, 6, 0, 0, 1, 0, 0]] =
    solveRun
    [[0, 0, 4, 0, 0, 6, 5, 7, 9], [0, 0, 0, 0, 0, 0, 6, 0, 2], [7, 5, 6, 0, 9, 2, 3, 0, 0],
     [4, 7, 8, 0, 6, 1, 0, 3, 0], [5, 0, 9, 0, 0, 0, 4, 0, 6], [0, 2, 0, 5, 4, 0, 8, 9, 0],
     [0, 0, 7, 4, 1, 0, 9, 2, 0], [1, 0, 5, 0, 0, 0, 0, 0, 0], [8, 4, 0, 6, 0, 0, 1, 0, 0]] :=
  solveRun_step2 _ _ 3 0 4 (by decide) (by decide) (by decide) (by decide)

/-- Round 4 of the end-to-end solve: the digit 2 is placed at (3, 6). -/
theorem c8_round_04 :
    solveRun
    [[0, 0, 4, 0, 0, 6, 5, 7, 9], [0, 0, 0, 0, 0, 0, 6, 0, 2], [7, 5, 6, 0, 9, 2, 3, 0, 0],
     [4, 7, 8, 0, 6, 1, 0, 3, 0], [5, 0, 9, 0, 0, 0, 4, 0, 6], [0, 2, 0, 5, 4, 0, 8, 9, 0],
     [0, 0, 7, 4, 1, 0, 9, 2, 0], [1, 0, 5, 0, 0, 0, 0, 0, 0], [8, 4, 0, 6, 0, 0, 1, 0, 0]] =
    solveRun
    [[0, 0, 4, 0, 0, 6, 5, 7, 9], [0, 0, 0, 0, 0, 0, 6, 0, 2], [7, 5, 6, 0, 9, 2, 3, 0, 0],
     [4, 7, 8, 0, 6, 1, 2, 3, 0], [5, 0, 9, 0, 0, 0, 4, 0, 6], [0, 2, 0, 5, 4, 0, 8, 9, 0],
     [0, 0, 7, 4, 1, 0, 9, 2, 0], [1, 0, 5, 0, 0, 0, 0, 0, 0], [8, 4, 0, 6, 0, 0, 1, 0, 0]] :=
  solveRun_step2 _ _ 3 6 2 (by decide) (by decide) (by decide) (by decide)

/-- Round 5 of the end-to-end solve: the digit 9 is placed at (3, 3). -/
theorem c8_round_05 :
    solveRun
    [[0, 0, 4, 0, 0, 6, 5, 7, 9], [0, 0, 0, 0, 0, 0, 6, 0, 2], [7, 5, 6, 0, 9, 2, 3, 0, 0],
     [4, 7, 8, 0, 6, 1, 2, 3, 0], [5, 0, 9, 0, 0, 0, 4, 0, 6], [0, 2, 0, 5, 4, 0, 8, 9, 0],
     [0, 0, 7, 4, 1, 0, 9, 2, 0], [1, 0, 5, 0, 0, 0, 0, 0, 0], [8, 4, 0, 6, 0, 0, 1, 0, 0]] =
    solveRun
    [[0, 0, 4, 0, 0, 6, 5, 7, 9], [0, 0, 0, 0, 0, 0, 6, 0, 2], [7, 5, 6, 0, 9, 2, 3, 0, 0],
     [4, 7, 8, 9, 6, 1, 2, 3, 0], [5, 0, 9, 0, 0, 0, 4, 0, 6], [0, 2, 0, 5, 4, 0, 8, 9, 0],
     [0, 0, 7, 4, 1, 0, 9, 2, 0], [1, 0, 5, 0, 0, 0, 0, 0, 0], [8, 4, 0, 6, 0, 0, 1, 0, 0]] :=
  solveRun_step2 _ _ 3 3 9 (by decide) (by decide) (by decide) (by decide)

/-- Round 6 of the end-to-end solve: the digit 5 is placed at (3, 8). -/
theorem c8_round_06 :
    solveRun
    [[0, 0, 4, 0, 0, 6, 5, 7, 9], [0, 0, 0, 0, 0, 0, 6, 0, 2], [7, 5, 6, 0, 9, 2, 3, 0, 0],
     [4, 7, 8, 9, 6, 1, 2, 3, 0], [5, 0, 9, 0, 0, 0, 4, 0, 6], [0, 2, 0, 5, 4, 0, 8, 9, 0],
     [0, 0, 7, 4, 1, 0, 9, 2, 0], [1, 0, 5, 0, 0, 0, 0, 0, 0], [8, 4, 0, 6, 0, 0, 1, 0, 0]] =
    solveRun
    [[0, 0, 4, 0, 0, 6, 5, 7, 9], [0, 0, 0, 0, 0, 0, 6, 0, 2], [7, 5, 6, 0, 9, 2, 3, 0, 0],
     [4, 7, 8, 9, 6, 1, 2, 3, 5], [5, 0, 9, 0, 0, 0, 4, 0, 6], [0, 2, 0, 5, 4, 0, 8, 9, 0],
     [0, 0, 7, 4, 1, 0, 9, 2, 0], [1, 0, 5, 0, 0, 0, 0, 0, 0], [8, 4, 0, 6, 0, 0, 1, 0, 0]] :=
  solveRun_step2 _ _ 3 8 5 (by decide) (by decide) (by decide) (by decide)

/-- Round 7 of the end-to-end solve: the digit 1 is placed at (4, 7). -/
theorem c8_round_07 :
    solveRun
    [[0, 0, 4, 0, 0, 6, 5, 7, 9], [0, 0, 0, 0, 0, 0, 6, 0, 2], [7, 5, 6, 0, 9, 2, 3, 0, 0],
     [4, 7, 8, 9, 6, 1, 2, 3, 5], [5, 0, 9, 0, 0, 0, 4, 0, 6], [0, 2, 0, 5, 4, 0, 8, 9, 0],
     [0, 0, 7, 4, 1, 0, 9, 2, 0], [1, 0, 5, 0, 0, 0, 0, 0, 0], [8, 4, 0, 6, 0, 0, 1, 0, 0]] =
    solveRun
    [[0, 0, 4, 0, 0, 6, 5, 7, 9], [0, 0, 0, 0, 0, 0, 6, 0, 2], [7, 5, 6, 0, 9, 2, 3, 0, 0],
     [4, 7, 8, 9, 6, 1, 2, 3, 5], [5, 0, 9, 0, 0, 0, 4, 1, 6], [0, 2, 0, 5, 4, 0, 8, 9, 0],
     [0, 0, 7, 4, 1, 0, 9, 2, 0], [1, 0, 5, 0, 0, 0, 0, 0, 0], [8, 4, 0, 6, 0, 0, 1, 0, 0]] :=
  solveRun_step2 _ _ 4 7 1 (by decide) (by decide) (by decide) (by decide)

/-- Round 8 of the end-to-end solve: the digit 3 is placed at (4, 1). -/
theorem c8_round_08 :
    solveRun
    [[0, 0, 4, 0, 0, 6, 5, 7, 9], [0, 0, 0, 0, 0, 0, 6, 0, 2], [7, 5, 6, 0, 9, 2, 3, 0, 0],
     [4, 7, 8, 9, 6, 1, 2, 3, 5], [5, 0, 9, 0, 0, 0, 4, 1, 6], [0, 2, 0, 5, 4, 0, 8, 9, 0],
     [0, 0, 7, 4, 1, 0, 9, 2, 0], [1, 0, 5, 0, 0, 0, 0, 0, 0], [8, 4, 0, 6, 0, 0, 1, 0, 0]] =
    solveRun
    [[0, 0, 4, 0, 0, 6, 5, 7, 9], [0, 0, 0, 0, 0, 0, 6, 0, 2], [7, 5, 6, 0, 9, 2, 3, 0, 0],
     [4, 7, 8, 9, 6, 1, 2, 3, 5], [5, 3, 9, 0, 0, 0, 4, 1, 6], [0, 2, 0, 5, 4, 0, 8, 9, 0],
     [0, 0, 7, 4, 1, 0, 9, 2, 0], [1, 0, 5, 0, 0, 0, 0, 0, 0], [8, 4, 0, 6, 0, 0, 1, 0, 0]] :=
  solveRun_step2 _ _ 4 1 3 (by decide) (by decide) (by decide) (by decide)

/-- Round 9 of the end-to-end solve: the digit 6 is placed at (5, 0). -/
theorem c8_round_09 :
    solveRun
    [[0, 0, 4, 0, 0, 6, 5, 7, 9], [0, 0, 0, 0, 0, 0, 6, 0, 2], [7, 5, 6, 0, 9, 2, 3, 0, 0],
     [4, 7, 8, 9, 6, 1, 2, 3, 5], [5, 3, 9, 0, 0, 0, 4, 1, 6], [0, 2, 0, 5, 4, 0, 8, 9, 0],
     [0, 0, 7, 4, 1, 0, 9, 2, 0], [1, 0, 5, 0, 0, 0, 0, 0, 0], [8, 4, 0, 6, 0, 0, 1, 0, 0]] =
    solveRun
    [[0, 0, 4, 0, 0, 6, 5, 7, 9], [0, 0, 0, 0, 0, 0, 6, 0, 2], [7, 5, 6, 0, 9, 2, 3, 0, 0],
     [4, 7, 8, 9, 6, 1, 2, 3, 5], [5, 3, 9, 0, 0, 0, 4, 1, 6], [6, 2, 0, 5, 4, 0, 8, 9, 0],
     [0, 0, 7, 4, 1, 0, 9, 2, 0], [1, 0, 5, 0, 0, 0, 0, 0, 0], [8, 4, 0, 6, 0, 0, 1, 0, 0]] :=
  solveRun_step2 _ _ 5 0 6 (by decide) (by decide) (by decide) (by decide)

/-- Round 10 of the end-to-end solve: the digit 1 is placed at (5, 2). -/
theorem c8_round_10 :
    solveRun
    [[0, 0, 4, 0, 0, 6, 5, 7, 9], [0, 0, 0, 0, 0, 0, 6, 0, 2], [7, 5, 6, 0, 9, 2, 3, 0, 0],
     [4, 7, 8, 9, 6, 1, 2, 3, 5], [5, 3, 9, 0, 0, 0, 4, 1, 6], [6, 2, 0, 5, 4, 0, 8, 9, 0],
     [0, 0, 7, 4, 1, 0, 9, 2, 0], [1, 0, 5, 0, 0, 0, 0, 0, 0], [8, 4, 0, 6, 0, 0, 1, 0, 0]] =
    solveRun
    [[0, 0, 4, 0, 0, 6, 5, 7, 9], [0, 0, 0, 0, 0, 0, 6, 0, 2], [7, 5, 6, 0, 9, 2, 3, 0, 0],
     [4, 7, 8, 9, 6, 1, 2, 3, 5], [5, 3, 9, 0, 0, 0, 4, 1, 6], [6, 2, 1, 5, 4, 0, 8, 9, 0],
     [0, 0, 7, 4, 1, 0, 9, 2, 0], [1, 0, 5, 0, 0, 0, 0, 0, 0], [8, 4, 0, 6, 0, 0, 1, 0, 0]] :=
  solveRun_step2 _ _ 5 2 1 (by decide) (by decide) (by decide) (by decide)

/-- Round 11 of the end-to-end solve: the digit 3 is placed at (1, 2). -/
theorem c8_round_11 :
    solveRun
    [[0, 0, 4, 0, 0, 6, 5, 7, 9], [0, 0, 0, 0, 0, 0, 6, 0, 2], [7, 5, 6, 0, 9, 2, 3, 0, 0],
     [4, 7, 8, 9, 6, 1, 2, 3, 5], [5, 3, 9, 0, 0, 0, 4, 1, 6], [6, 2, 1, 5, 4, 0, 8, 9, 0],
     [0, 0, 7, 4, 1, 0, 9, 2, 0], [1, 0, 5, 0, 0, 0, 0, 0, 0], [8, 4, 0, 6, 0, 0, 1, 0, 0]] =
    solveRun
    [[0, 0, 4, 0, 0, 6, 5, 7, 9], [0, 0, 3, 0, 0, 0, 6, 0, 2], [7, 5, 6, 0, 9, 2, 3, 0, 0],
     [4, 7, 8, 9, 6, 1, 2, 3, 5], [5, 3, 9, 0, 0, 0, 4, 1, 6], [6, 2, 1, 5, 4, 0, 8, 9, 0],
     [0, 0, 7, 4, 1, 0, 9, 2, 0], [1, 0, 5, 0, 0, 0, 0, 0, 0], [8, 4, 0, 6, 0, 0, 1, 0, 0]] :=
  solveRun_step2 _ _ 1 2 3 (by decide) (by decide) (by decide) (by decide)

/-- Round 12 of the end-to-end solve: the digit 2 is placed at (0, 0). -/
theorem c8_round_12 :
    solveRun
    [[0, 0, 4, 0, 0, 6, 5, 7, 9], [0, 0, 3, 0, 0, 0, 6, 0, 2], [7, 5, 6, 0, 9, 2, 3, 0, 0],
     [4, 7, 8, 9, 6, 1, 2, 3, 5], [5, 3, 9, 0, 0, 0, 4, 1, 6], [6, 2, 1, 5, 4, 0, 8, 9, 0],
     [0, 0, 7, 4, 1, 0, 9, 2, 0], [1, 0, 5, 0, 0, 0, 0, 0, 0], [8, 4, 0, 6, 0, 0, 1, 0, 0]] =
    solveRun
    [[2, 0, 4, 0, 0, 6, 5, 7, 9], [0, 0, 3, 0, 0, 0, 6, 0, 2], [7, 5, 6, 0, 9, 2, 3, 0, 0],
     [4, 7, 8, 9, 6, 1, 2, 3, 5], [5, 3, 9, 0, 0, 0, 4, 1, 6], [6, 2, 1, 5, 4, 0, 8, 9, 0],
     [0, 0, 7, 4, 1, 0, 9, 2, 0], [1, 0, 5, 0, 0, 0, 0, 0, 0], [8, 4, 0, 6, 0, 0, 1, 0, 0]] :=
  solveRun_step2 _ _ 0 0 2 (by decide) (by decide) (by decide) (by decide)

/-- Round 13 of the end-to-end solve: the digit 9 is placed at (1, 0). -/
theorem c8_round_13 :
    solveRun
    [[2, 0, 4, 0, 0, 6, 5, 7, 9], [0, 0, 3, 0, 0, 0, 6, 0, 2], [7, 5, 6, 0, 9, 2, 3, 0, 0],
     [4, 7, 8, 9, 6, 1, 2, 3, 5], [5, 3, 9, 0, 0, 0, 4, 1, 6], [6, 2, 1, 5, 4, 0, 8, 9, 0],
     [0, 0, 7, 4, 1, 0, 9, 2, 0], [1, 0, 5, 0, 0, 0, 0, 0, 0], [8, 4, 0, 6, 0, 0, 1, 0, 0]] =
    solveRun
    [[2, 0, 4, 0, 0, 6, 5, 7, 9], [9, 0, 3, 0, 0, 0, 6, 0, 2], [7, 5, 6, 0, 9, 2, 3, 0, 0],
     [4, 7, 8, 9, 6, 1, 2, 3, 5], [5, 3, 9, 0, 0, 0, 4, 1, 6], [6, 2, 1, 5, 4, 0, 8, 9, 0],
     [0, 0, 7, 4, 1, 0, 9, 2, 0], [1, 0, 5, 0, 0, 0, 0, 0, 0], [8, 4, 0, 6, 0, 0, 1, 0, 0]] :=
  solveRun_step2 _ _ 1 0 9 (by decide) (by decide) (by decide) (by decide)

/-- Round 14 of the end-to-end solve: the digit 7 is placed at (5, 8). -/
theorem c8_round_14 :
    solveRun
    [[2, 0, 4, 0, 0, 6, 5, 7, 9], [9, 0, 3, 0, 0, 0, 6, 0, 2], [7, 5, 6, 0, 9, 2, 3, 0, 0],
     [4, 7, 8, 9, 6, 1, 2, 3, 5], [5, 3, 9, 0, 0, 0, 4, 1, 6], [6, 2, 1, 5, 4, 0, 8, 9, 0],
     [0, 0, 7, 4, 1, 0, 9, 2, 0], [1, 0, 5, 0, 0, 0, 0, 0, 0], [8, 4, 0, 6, 0, 0, 1, 0, 0]] =
    solveRun
    [[2, 0, 4, 0, 0, 6, 5, 7, 9], [9, 0, 3, 0, 0, 0, 6, 0, 2], [7, 5, 6, 0, 9, 2, 3, 0, 0],
     [4, 7, 8, 9, 6, 1, 2, 3, 5], [5, 3, 9, 0, 0, 0, 4, 1, 6], [6, 2, 1, 5, 4, 0, 8, 9, 7],
     [0, 0, 7, 4, 1, 0, 9, 2, 0], [1, 0, 5, 0, 0, 0, 0, 0, 0], [8, 4, 0, 6, 0, 0, 1, 0, 0]] :=
  solveRun_step2 _ _ 5 8 7 (by decide) (by decide) (by decide) (by decide)

/-- Round 15 of the end-to-end solve: the digit 3 is placed at (5, 5). -/
theorem c8_round_15 :
    solveRun
    [[2, 0, 4, 0, 0, 6, 5, 7, 9], [9, 0, 3, 0, 0, 0, 6, 0, 2], [7, 5, 6, 0, 9, 2, 3, 0, 0],
     [4, 7, 8, 9, 6, 1, 2, 3, 5], [5, 3, 9, 0, 0, 0, 4, 1, 6], [6, 2, 1, 5, 4, 0, 8, 9, 7],
     [0, 0, 7, 4, 1, 0, 9, 2, 0], [1, 0, 5, 0, 0, 0, 0, 0, 0], [8, 4, 0, 6, 0, 0, 1, 0, 0]] =
    solveRun
    [[2, 0, 4, 0, 0, 6, 5, 7, 9], [9, 0, 3, 0, 0, 0, 6, 0, 2], [7, 5, 6, 0, 9, 2, 3, 0, 0],
     [4, 7, 8, 9, 6, 1, 2, 3, 5], [5, 3, 9, 0, 0, 0, 4, 1, 6], [6, 2, 1, 5, 4, 3, 8, 9, 7],
     [0, 0, 7, 4, 1, 0, 9, 2, 0], [1, 0, 5, 0, 0, 0, 0, 0, 0], [8, 4, 0, 6, 0, 0, 1, 0, 0]] :=
  solveRun_step2 _ _ 5 5 3 (by decide) (by decide) (by decide) (by decide)

/-- Round 16 of the end-to-end solve: the digit 3 is placed at (6, 0). -/
theorem c8_round_16 :
    solveRun
    [[2, 0, 4, 0, 0, 6, 5, 7, 9], [9, 0, 3, 0, 0, 0, 6, 0, 2], [7, 5, 6, 0, 9, 2, 3, 0, 0],
     [4, 7, 8, 9, 6, 1, 2, 3, 5], [5, 3, 9, 0, 0, 0, 4, 1, 6], [6, 2, 1, 5, 4, 3, 8, 9, 7],
     [0, 0, 7, 4, 1, 0, 9, 2, 0], [1, 0, 5, 0, 0, 0, 0, 0, 0], [8, 4, 0, 6, 0, 0, 1, 0, 0]] =
    solveRun
    [[2, 0, 4, 0, 0, 6, 5, 7, 9], [9, 0, 3, 0, 0, 0, 6, 0, 2], [7, 5, 6, 0, 9, 2, 3, 0, 0],
     [4, 7, 8, 9, 6, 1, 2, 3, 5], [5, 3, 9, 0, 0, 0, 4, 1, 6], [6, 2, 1, 5, 4, 3, 8, 9, 7],
     [3, 0, 7, 4, 1, 0, 9, 2, 0], [1, 0, 5, 0, 0, 0, 0, 0, 0], [8, 4, 0, 6, 0, 0, 1, 0, 0]] :=
  solveRun_step2 _ _ 6 0 3 (by decide) (by decide) (by decide) (by decide)

/-- Round 17 of the end-to-end solve: the digit 6 is placed at (6, 1). -/
theorem c8_round_17 :
    solveRun
    [[2, 0, 4, 0, 0, 6, 5, 7, 9], [9, 0, 3, 0, 0, 0, 6, 0, 2], [7, 5, 6, 0, 9, 2, 3, 0, 0],
     [4, 7, 8, 9, 6, 1, 2, 3, 5], [5, 3, 9, 0, 0, 0, 4, 1, 6], [6, 2, 1, 5, 4, 3, 8, 9, 7],
     [3, 0, 7, 4, 1, 0, 9, 2, 0], [1, 0, 5, 0, 0, 0, 0, 0, 0], [8, 4, 0, 6, 0, 0, 1, 0, 0]] =
    solveRun
    [[2, 0, 4, 0, 0, 6, 5, 7, 9], [9, 0, 3, 0, 0, 0, 6, 0, 2], [7, 5, 6, 0, 9, 2, 3, 0, 0],
     [4, 7, 8, 9, 6, 1, 2, 3, 5], [5, 3, 9, 0, 0, 0, 4, 1, 6], [6, 2, 1, 5, 4, 3, 8, 9, 7],
     [3, 6, 7, 4, 1, 0, 9, 2, 0], [1, 0, 5, 0, 0, 0, 0, 0, 0], [8, 4, 0, 6, 0, 0, 1, 0, 0]] :=
  solveRun_step2 _ _ 6 1 6 (by decide) (by decide) (by decide) (by decide)

/-- Round 18 of the end-to-end solve: the digit 8 is placed at (6, 8). -/
theorem c8_round_18 :
    solveRun
    [[2, 0, 4, 0, 0, 6, 5, 7, 9], [9, 0, 3, 0, 0, 0, 6, 0, 2], [7, 5, 6, 0, 9, 2, 3, 0, 0],
     [4, 7, 8, 9, 6, 1, 2, 3, 5], [5, 3, 9, 0, 0, 0, 4, 1, 6], [6, 2, 1, 5, 4, 3, 8, 9, 7],
     [3, 6, 7, 4, 1, 0, 9, 2, 0], [1, 0, 5, 0, 0, 0, 0, 0, 0], [8, 4, 0, 6, 0, 0, 1, 0, 0]] =
    solveRun
    [[2, 0, 4, 0, 0, 6, 5, 7, 9], [9, 0, 3, 0, 0, 0, 6, 0, 2], [7, 5, 6, 0, 9, 2, 3, 0, 0],
     [4, 7, 8, 9, 6, 1, 2, 3, 5], [5, 3, 9, 0, 0, 0, 4, 1, 6], [6, 2, 1, 5, 4, 3, 8, 9, 7],
     [3, 6, 7, 4, 1, 0, 9, 2, 8], [1, 0, 5, 0, 0, 0, 0, 0, 0], [8, 4, 0, 6, 0, 0, 1, 0, 0]] :=
  solveRun_step2 _ _ 6 8 8 (by decide) (by decide) (by decide) (by decide)

/-- Round 19 of the end-to-end solve: the digit 5 is placed at (6, 5). -/
theorem c8_round_19 :
    solveRun
    [[2, 0, 4, 0, 0, 6, 5, 7, 9], [9, 0, 3, 0, 0, 0, 6, 0, 2], [7, 5, 6, 0, 9, 2, 3, 0, 0],
     [4, 7, 8, 9, 6, 1, 2, 3, 5], [5, 3, 9, 0, 0, 0, 4, 1, 6], [6, 2, 1, 5, 4, 3, 8, 9, 7],
     [3, 6, 7, 4, 1, 0, 9, 2, 8], [1, 0, 5, 0, 0, 0, 0, 0, 0], [8, 4, 0, 6, 0, 0, 1, 0, 0]] =
    solveRun
    [[2, 0, 4, 0, 0, 6, 5, 7, 9], [9, 0, 3, 0, 0, 0, 6, 0, 2], [7, 5, 6, 0, 9, 2, 3, 0, 0],
     [4, 7, 8, 9, 6, 1, 2, 3, 5], [5, 3, 9, 0, 0, 0, 4, 1, 6], [6, 2, 1, 5, 4, 3, 8, 9, 7],
     [3, 6, 7, 4, 1, 5, 9, 2, 8], [1, 0, 5, 0, 0, 0, 0, 0, 0], [8, 4, 0, 6, 0, 0, 1, 0, 0]] :=
  solveRun_step2 _ _ 6 5 5 (by decide) (by decide) (by decide) (by decide)

/-- Round 20 of the end-to-end solve: the digit 9 is placed at (7, 1). -/
theorem c8_round_20 :
    solveRun
    [[2, 0, 4, 0, 0, 6, 5, 7, 9], [9, 0, 3, 0, 0, 0, 6, 0, 2], [7, 5, 6, 0, 9, 2, 3, 0, 0],
     [4, 7, 8, 9, 6, 1, 2, 3, 5], [5, 3, 9, 0, 0, 0, 4, 1, 6], [6, 2, 1, 5, 4, 3, 8, 9, 7],
     [3, 6, 7, 4, 1, 5, 9, 2, 8], [1, 0, 5, 0, 0, 0, 0, 0, 0], [8, 4, 0, 6, 0, 0, 1, 0, 0]] =
    solveRun
    [[2, 0, 4, 0, 0, 6, 5, 7, 9], [9, 0, 3, 0, 0, 0, 6, 0, 2], [7, 5, 6, 0, 9, 2, 3, 0, 0],
     [4, 7, 8, 9, 6, 1, 2, 3, 5], [5, 3, 9, 0, 0, 0, 4, 1, 6], [6, 2, 1, 5, 4, 3, 8, 9, 7],
     [3, 6, 7, 4, 1, 5, 9, 2, 8], [1, 9, 5, 0, 0, 0, 0, 0, 0], [8, 4, 0, 6, 0, 0, 1, 0, 0]] :=
  solveRun_step2 _ _ 7 1 9 (by decide) (by decide) (by decide) (by decide)

/-- Round 21 of the end-to-end solve: the digit 7 is placed at (7, 6). -/
theorem c8_round_21 :
    solveRun
    [[2, 0, 4, 0, 0, 6, 5, 7, 9], [9, 0, 3, 0, 0, 0, 6, 0, 2], [7, 5, 6, 0, 9, 2, 3, 0, 0],
     [4, 7, 8, 9, 6, 1, 2, 3, 5], [5, 3, 9, 0, 0, 0, 4, 1, 6], [6, 2, 1, 5, 4, 3, 8, 9, 7],
     [3, 6, 7, 4, 1, 5, 9, 2, 8], [1, 9, 5, 0, 0, 0, 0, 0, 0], [8, 4, 0, 6, 0, 0, 1, 0, 0]] =
    solveRun
    [[2, 0, 4, 0, 0, 6, 5, 7, 9], [9, 0, 3, 0, 0, 0, 6, 0, 2], [7, 5, 6, 0, 9, 2, 3, 0, 0],
     [4, 7, 8, 9, 6, 1, 2, 3, 5], [5, 3, 9, 0, 0, 0, 4, 1, 6], [6, 2, 1, 5, 4, 3, 8, 9, 7],
     [3, 6, 7, 4, 1, 5, 9, 2, 8], [1, 9, 5, 0, 0, 0, 7, 0, 0], [8, 4, 0, 6, 0, 0, 1, 0, 0]] :=
  solveRun_step2 _ _ 7 6 7 (by decide) (by decide) (by decide) (by decide)

/-- Round 22 of the end-to-end solve: the digit 8 is placed at (7, 5). -/
theorem c8_round_22 :
    solveRun
    [[2, 0, 4, 0, 0, 6, 5, 7, 9], [9, 0, 3, 0, 0, 0, 6, 0, 2], [7, 5, 6, 0, 9, 2, 3, 0, 0],
     [4, 7, 8, 9, 6, 1, 2, 3, 5], [5, 3, 9, 0, 0, 0, 4, 1, 6], [6, 2, 1, 5, 4, 3, 8, 9, 7],
     [3, 6, 7, 4, 1, 5, 9, 2, 8], [1, 9, 5, 0, 0, 0, 7, 0, 0], [8, 4, 0, 6, 0, 0, 1, 0, 0]] =
    solveRun
    [[2, 0, 4, 0, 0, 6, 5, 7, 9], [9, 0, 3, 0, 0, 0, 6, 0, 2], [7, 5, 6, 0, 9, 2, 3, 0, 0],
     [4, 7, 8, 9, 6, 1, 2, 3, 5], [5, 3, 9, 0, 0, 0, 4, 1, 6], [6, 2, 1, 5, 4, 3, 8, 9, 7],
     [3, 6, 7, 4, 1, 5, 9, 2, 8], [1, 9, 5, 0, 0, 8, 7, 0, 0], [8, 4, 0, 6, 0, 0, 1, 0, 0]] :=
  solveRun_step2 _ _ 7 5 8 (by decide) (by decide) (by decide) (by decide)

/-- Round 23 of the end-to-end solve: the digit 7 is placed at (4, 5). -/
theorem c8_round_23 :
    solveRun
    [[2, 0, 4, 0, 0, 6, 5, 7, 9], [9, 0, 3, 0, 0, 0, 6, 0, 2], [7, 5, 6, 0, 9, 2, 3, 0, 0],
     [4, 7, 8, 9, 6, 1, 2, 3, 5], [5, 3, 9, 0, 0, 0, 4, 1, 6], [6, 2, 1, 5, 4, 3, 8, 9, 7],
     [3, 6, 7, 4, 1, 5, 9, 2, 8], [1, 9, 5, 0, 0, 8, 7, 0, 0], [8, 4, 0, 6, 0, 0, 1, 0, 0]] =
    solveRun
    [[2, 0, 4, 0, 0, 6, 5, 7, 9], [9, 0, 3, 0, 0, 0, 6, 0, 2], [7, 5, 6, 0, 9, 2, 3, 0, 0],
     [4, 7, 8, 9, 6, 1, 2, 3, 5], [5, 3, 9, 0, 0, 7, 4, 1, 6], [6, 2, 1, 5, 4, 3, 8, 9, 7],
     [3, 6, 7, 4, 1, 5, 9, 2, 8], [1, 9, 5, 0, 0, 8, 7, 0, 0], [8, 4, 0, 6, 0, 0, 1, 0, 0]] :=
  solveRun_step2 _ _ 4 5 7 (by decide) (by decide) (by decide) (by decide)

/-- Round 24 of the end-to-end solve: the digit 4 is placed at (1, 5). -/
theorem c8_round_24 :
    solveRun
    [[2, 0, 4, 0, 0, 6, 5, 7, 9], [9, 0, 3, 0, 0, 0, 6, 0, 2], [7, 5, 6, 0, 9, 2, 3, 0, 0],
     [4, 7, 8, 9, 6, 1, 2, 3, 5], [5, 3, 9, 0, 0, 7, 4, 1, 6], [6, 2, 1, 5, 4, 3, 8, 9, 7],
     [3, 6, 7, 4, 1, 5, 9, 2, 8], [1, 9, 5, 0, 0, 8, 7, 0, 0], [8, 4, 0, 6, 0, 0, 1, 0, 0]] =
    solveRun
    [[2, 0, 4, 0, 0, 6, 5, 7, 9], [9, 0, 3, 0, 0, 4, 6, 0, 2], [7, 5, 6, 0, 9, 2, 3, 0, 0],
     [4, 7, 8, 9, 6, 1, 2, 3, 5], [5, 3, 9, 0, 0, 7, 4, 1, 6], [6, 2, 1, 5, 4, 3, 8, 9, 7],
     [3, 6, 7, 4, 1, 5, 9, 2, 8], [1, 9, 5, 0, 0, 8, 7, 0, 0], [8, 4, 0, 6, 0, 0, 1, 0, 0]] :=
  solveRun_step2 _ _ 1 5 4 (by decide) (by decide) (by decide) (by decide)

/-- Round 25 of the end-to-end solve: the digit 8 is placed at (1, 7). -/
theorem c8_round_25 :
    solveRun
    [[2, 0, 4, 0, 0, 6, 5, 7, 9], [9, 0, 3, 0, 0, 4, 6, 0, 2], [7, 5, 6, 0, 9, 2, 3, 0, 0],
     [4, 7, 8, 9, 6, 1, 2, 3, 5], [5, 3, 9, 0, 0, 7, 4, 1, 6], [6, 2, 1, 5, 4, 3, 8, 9, 7],
     [3, 6, 7, 4, 1, 5, 9, 2, 8], [1, 9, 5, 0, 0, 8, 7, 0, 0], [8, 4, 0, 6, 0, 0, 1, 0, 0]] =
    solveRun
    [[2, 0, 4, 0, 0, 6, 5, 7, 9], [9, 0, 3, 0, 0, 4, 6, 8, 2], [7, 5, 6, 0, 9, 2, 3, 0, 0],
     [4, 7, 8, 9, 6, 1, 2, 3, 5], [5, 3, 9, 0, 0, 7, 4, 1, 6], [6, 2, 1, 5, 4, 3, 8, 9, 7],
     [3, 6, 7, 4, 1, 5, 9, 2, 8], [1, 9, 5, 0, 0, 8, 7, 0, 0], [8, 4, 0, 6, 0, 0, 1, 0, 0]] :=
  solveRun_step2 _ _ 1 7 8 (by decide) (by decide) (by decide) (by decide)

/-- Round 26 of the end-to-end solve: the digit 1 is placed at (1, 1). -/
theorem c8_round_26 :
    solveRun
    [[2, 0, 4, 0, 0, 6, 5, 7, 9], [9, 0, 3, 0, 0, 4, 6, 8, 2], [7, 5, 6, 0, 9, 2, 3, 0, 0],
     [4, 7, 8, 9, 6, 1, 2, 3, 5], [5, 3, 9, 0, 0, 7, 4, 1, 6], [6, 2, 1, 5, 4, 3, 8, 9, 7],
     [3, 6, 7, 4, 1, 5, 9, 2, 8], [1, 9, 5, 0, 0, 8, 7, 0, 0], [8, 4, 0, 6, 0, 0, 1, 0, 0]] =
    solveRun
    [[2, 0, 4, 0, 0, 6, 5, 7, 9], [9, 1, 3, 0, 0, 4, 6, 8, 2], [7, 5, 6, 0, 9, 2, 3, 0, 0],
     [4, 7, 8, 9, 6, 1, 2, 3, 5], [5, 3, 9, 0, 0, 7, 4, 1, 6], [6, 2, 1, 5, 4, 3, 8, 9, 7],
     [3, 6, 7, 4, 1, 5, 9, 2, 8], [1, 9, 5, 0, 0, 8, 7, 0, 0], [8, 4, 0, 6, 0, 0, 1, 0, 0]] :=
  solveRun_step2 _ _ 1 1 1 (by decide) (by decide) (by decide) (by decide)

/-- Round 27 of the end-to-end solve: the digit 8 is placed at (0, 1). -/
theorem c8_round_27 :
    solveRun
    [[2, 0, 4, 0, 0, 6, 5, 7, 9], [9, 1, 3, 0, 0, 4, 6, 8, 2], [7, 5, 6, 0, 9, 2, 3, 0, 0],
     [4, 7, 8, 9, 6, 1, 2, 3, 5], [5, 3, 9, 0, 0, 7, 4, 1, 6], [6, 2, 1, 5, 4, 3, 8, 9, 7],
     [3, 6, 7, 4, 1, 5, 9, 2, 8], [1, 9, 5, 0, 0, 8, 7, 0, 0], [8, 4, 0, 6, 0, 0, 1, 0, 0]] =
    solveRun
    [[2, 8, 4, 0, 0, 6, 5, 7, 9], [9, 1, 3, 0, 0, 4, 6, 8, 2], [7, 5, 6, 0, 9, 2, 3, 0, 0],
     [4, 7, 8, 9, 6, 1, 2, 3, 5], [5, 3, 9, 0, 0, 7, 4, 1, 6], [6, 2, 1, 5, 4, 3, 8, 9, 7],
     [3, 6, 7, 4, 1, 5, 9, 2, 8], [1, 9, 5, 0, 0, 8, 7, 0, 0], [8, 4, 0, 6, 0, 0, 1, 0, 0]] :=
  solveRun_step2 _ _ 0 1 8 (by decide) (by decide) (by decide) (by decide)

/-- Round 28 of the end-to-end solve: the digit 3 is placed at (0, 4). -/
theorem c8_round_28 :
    solveRun
    [[2, 8, 4, 0, 0, 6, 5, 7, 9], [9, 1, 3, 0, 0, 4, 6, 8, 2], [7, 5, 6, 0, 9, 2, 3, 0, 0],
     [4, 7, 8, 9, 6, 1, 2, 3, 5], [5, 3, 9, 0, 0, 7, 4, 1, 6], [6, 2, 1, 5, 4, 3, 8, 9, 7],
     [3, 6, 7, 4, 1, 5, 9, 2, 8], [1, 9, 5, 0, 0, 8, 7, 0, 0], [8, 4, 0, 6, 0, 0, 1, 0, 0]] =
    solveRun
    [[2, 8, 4, 0, 3, 6, 5, 7, 9], [9, 1, 3, 0, 0, 4, 6, 8, 2], [7, 5, 6, 0, 9, 2, 3, 0, 0],
     [4, 7, 8, 9, 6, 1, 2, 3, 5], [5, 3, 9, 0, 0, 7, 4, 1, 6], [6, 2, 1, 5, 4, 3, 8, 9, 7],
     [3, 6, 7, 4, 1, 5, 9, 2, 8], [1, 9, 5, 0, 0, 8, 7, 0, 0], [8, 4, 0, 6, 0, 0, 1, 0, 0]] :=
  solveRun_step2 _ _ 0 4 3 (by decide) (by decide) (by decide) (by decide)

/-- Round 29 of the end-to-end solve: the digit 1 is placed at (0, 3). -/
theorem c8_round_29 :
    solveRun
    [[2, 8, 4, 0, 3, 6, 5, 7, 9], [9, 1, 3, 0, 0, 4, 6, 8, 2], [7, 5, 6, 0, 9, 2, 3, 0, 0],
     [4, 7, 8, 9, 6, 1, 2, 3, 5], [5, 3, 9, 0, 0, 7, 4, 1, 6], [6, 2, 1, 5, 4, 3, 8, 9, 7],
     [3, 6, 7, 4, 1, 5, 9, 2, 8], [1, 9, 5, 0, 0, 8, 7, 0, 0], [8, 4, 0, 6, 0, 0, 1, 0, 0]] =
    solveRun
    [[2, 8, 4, 1, 3, 6, 5, 7, 9], [9, 1, 3, 0, 0, 4, 6, 8, 2], [7, 5, 6, 0, 9, 2, 3, 0, 0],
     [4, 7, 8, 9, 6, 1, 2, 3, 5], [5, 3, 9, 0, 0, 7, 4, 1, 6], [6, 2, 1, 5, 4, 3, 8, 9, 7],
     [3, 6, 7, 4, 1, 5, 9, 2, 8], [1, 9, 5, 0, 0, 8, 7, 0, 0], [8, 4, 0, 6, 0, 0, 1, 0, 0]] :=
  solveRun_step2 _ _ 0 3 1 (by decide) (by decide) (by decide) (by decide)

/-- Round 30 of the end-to-end solve: the digit 7 is placed at (1, 3). -/
theorem c8_round_30 :
    solveRun
    [[2, 8, 4, 1, 3, 6, 5, 7, 9], [9, 1, 3, 0, 0, 4, 6, 8, 2], [7, 5, 6, 0, 9, 2, 3, 0, 0],
     [4, 7, 8, 9, 6, 1, 2, 3, 5], [5, 3, 9, 0, 0, 7, 4, 1, 6], [6, 2, 1, 5, 4, 3, 8, 9, 7],
     [3, 6, 7, 4, 1, 5, 9, 2, 8], [1, 9, 5, 0, 0, 8, 7, 0, 0], [8, 4, 0, 6, 0, 0, 1, 0, 0]] =
    solveRun
    [[2, 8, 4, 1, 3, 6, 5, 7, 9], [9, 1, 3, 7, 0, 4, 6, 8, 2], [7, 5, 6, 0, 9, 2, 3, 0, 0],
     [4, 7, 8, 9, 6, 1, 2, 3, 5], [5, 3, 9, 0, 0, 7, 4, 1, 6], [6, 2, 1, 5, 4, 3, 8, 9, 7],
     [3, 6, 7, 4, 1, 5, 9, 2, 8], [1, 9, 5, 0, 0, 8, 7, 0, 0], [8, 4, 0, 6, 0, 0, 1, 0, 0]] :=
  solveRun_step2 _ _ 1 3 7 (by decide) (by decide) (by decide) (by decide)

/-- Round 31 of the end-to-end solve: the digit 5 is placed at (1, 4). -/
theorem c8_round_31 :
    solveRun
    [[2, 8, 4, 1, 3, 6, 5, 7, 9], [9, 1, 3, 7, 0, 4, 6, 8, 2], [7, 5, 6, 0, 9, 2, 3, 0, 0],
     [4, 7, 8, 9, 6, 1, 2, 3, 5], [5, 3, 9, 0, 0, 7, 4, 1, 6], [6, 2, 1, 5, 4, 3, 8, 9, 7],
     [3, 6, 7, 4, 1, 5, 9, 2, 8], [1, 9, 5, 0, 0, 8, 7, 0, 0], [8, 4, 0, 6, 0, 0, 1, 0, 0]] =
    solveRun
    [[2, 8, 4, 1, 3, 6, 5, 7, 9], [9, 1, 3, 7, 5, 4, 6, 8, 2], [7, 5, 6, 0, 9, 2, 3, 0, 0],
     [4, 7, 8, 9, 6, 1, 2, 3, 5], [5, 3, 9, 0, 0, 7, 4, 1, 6], [6, 2, 1, 5, 4, 3, 8, 9, 7],
     [3, 6, 7, 4, 1, 5, 9, 2, 8], [1, 9, 5, 0, 0, 8, 7, 0, 0], [8, 4, 0, 6, 0, 0, 1, 0, 0]] :=
  solveRun_step2 _ _ 1 4 5 (by decide) (by decide) (by decide) (by decide)

/-- Round 32 of the end-to-end solve: the digit 8 is placed at (2, 3). -/
theorem c8_round_32 :
    solveRun
    [[2, 8, 4, 1, 3, 6, 5, 7, 9], [9, 1, 3, 7, 5, 4, 6, 8, 2], [7, 5, 6, 0, 9, 2, 3, 0, 0],
     [4, 7, 8, 9, 6, 1, 2, 3, 5], [5, 3, 9, 0, 0, 7, 4, 1, 6], [6, 2, 1, 5, 4, 3, 8, 9, 7],
     [3, 6, 7, 4, 1, 5, 9, 2, 8], [1, 9, 5, 0, 0, 8, 7, 0, 0], [8, 4, 0, 6, 0, 0, 1, 0, 0]] =
    solveRun
    [[2, 8, 4, 1, 3, 6, 5, 7, 9], [9, 1, 3, 7, 5, 4, 6, 8, 2], [7, 5, 6, 8, 9, 2, 3, 0, 0],
     [4, 7, 8, 9, 6, 1, 2, 3, 5], [5, 3, 9, 0, 0, 7, 4, 1, 6], [6, 2, 1, 5, 4, 3, 8, 9, 7],
     [3, 6, 7, 4, 1, 5, 9, 2, 8], [1, 9, 5, 0, 0, 8, 7, 0, 0], [8, 4, 0, 6, 0, 0, 1, 0, 0]] :=
  solveRun_step2 _ _ 2 3 8 (by decide) (by decide) (by decide) (by decide)

/-- Round 33 of the end-to-end solve: the digit 4 is placed at (2, 7). -/
theorem c8_round_33 :
    solveRun
    [[2, 8, 4, 1, 3, 6, 5, 7, 9], [9, 1, 3, 7, 5, 4, 6, 8, 2], [7, 5, 6, 8, 9, 2, 3, 0, 0],
     [4, 7, 8, 9, 6, 1, 2, 3, 5], [5, 3, 9, 0, 0, 7, 4, 1, 6], [6, 2, 1, 5, 4, 3, 8, 9, 7],
     [3, 6, 7, 4, 1, 5, 9, 2, 8], [1, 9, 5, 0, 0, 8, 7, 0, 0], [8, 4, 0, 6, 0, 0, 1, 0, 0]] =
    solveRun
    [[2, 8, 4, 1, 3, 6, 5, 7, 9], [9, 1, 3, 7, 5, 4, 6, 8, 2], [7, 5, 6, 8, 9, 2, 3, 4, 0],
     [4, 7, 8, 9, 6, 1, 2, 3, 5], [5, 3, 9, 0, 0, 7, 4, 1, 6], [6, 2, 1, 5, 4, 3, 8, 9, 7],
     [3, 6, 7, 4, 1, 5, 9, 2, 8], [1, 9, 5, 0, 0, 8, 7, 0, 0], [8, 4, 0, 6, 0, 0, 1, 0, 0]] :=
  solveRun_step2 _ _ 2 7 4 (by decide) (by decide) (by decide) (by decide)

/-- Round 34 of the end-to-end solve: the digit 1 is placed at (2, 8). -/
theorem c8_round_34 :
    solveRun
    [[2, 8, 4, 1, 3, 6, 5, 7, 9], [9, 1, 3, 7, 5, 4, 6, 8, 2], [7, 5, 6, 8, 9, 2, 3, 4, 0],
     [4, 7, 8, 9, 6, 1, 2, 3, 5], [5, 3, 9, 0, 0, 7, 4, 1, 6], [6, 2, 1, 5, 4, 3, 8, 9, 7],
     [3, 6, 7, 4, 1, 5, 9, 2, 8], [1, 9, 5, 0, 0, 8, 7, 0, 0], [8, 4, 0, 6, 0, 0, 1, 0, 0]] =
    solveRun
    [[2, 8, 4, 1, 3, 6, 5, 7, 9], [9, 1, 3, 7, 5, 4, 6, 8, 2], [7, 5, 6, 8, 9, 2, 3, 4, 1],
     [4, 7, 8, 9, 6, 1, 2, 3, 5], [5, 3, 9, 0, 0, 7, 4, 1, 6], [6, 2, 1, 5, 4, 3, 8, 9, 7],
     [3, 6, 7, 4, 1, 5, 9, 2, 8], [1, 9, 5, 0, 0, 8, 7, 0, 0], [8, 4, 0, 6, 0, 0, 1, 0, 0]] :=
  solveRun_step2 _ _ 2 8 1 (by decide) (by decide) (by decide) (by decide)

/-- Round 35 of the end-to-end solve: the digit 2 is placed at (4, 3). -/
theorem c8_round_35 :
    solveRun
    [[2, 8, 4, 1, 3, 6, 5, 7, 9], [9, 1, 3, 7, 5, 4, 6, 8, 2], [7, 5, 6, 8, 9, 2, 3, 4, 1],
     [4, 7, 8, 9, 6, 1, 2, 3, 5], [5, 3, 9, 0, 0, 7, 4, 1, 6], [6, 2, 1, 5, 4, 3, 8, 9, 7],
     [3, 6, 7, 4, 1, 5, 9, 2, 8], [1, 9, 5, 0, 0, 8, 7, 0, 0], [8, 4, 0, 6, 0, 0, 1, 0, 0]] =
    solveRun
    [[2, 8, 4, 1, 3, 6, 5, 7, 9], [9, 1, 3, 7, 5, 4, 6, 8, 2], [7, 5, 6, 8, 9, 2, 3, 4, 1],
     [4, 7, 8, 9, 6, 1, 2, 3, 5], [5, 3, 9, 2, 0, 7, 4, 1, 6], [6, 2, 1, 5, 4, 3, 8, 9, 7],
     [3, 6, 7, 4, 1, 5, 9, 2, 8], [1, 9, 5, 0, 0, 8, 7, 0, 0], [8, 4, 0, 6, 0, 0, 1, 0, 0]] :=
  solveRun_step2 _ _ 4 3 2 (by decide) (by decide) (by decide) (by decide)

/-- Round 36 of the end-to-end solve: the digit 8 is placed at (4, 4). -/
theorem c8_round_36 :
    solveRun
    [[2, 8, 4, 1, 3, 6, 5, 7, 9], [9, 1, 3, 7, 5, 4, 6, 8, 2], [7, 5, 6, 8, 9, 2, 3, 4, 1],
     [4, 7, 8, 9, 6, 1, 2, 3, 5], [5, 3, 9, 2, 0, 7, 4, 1, 6], [6, 2, 1, 5, 4, 3, 8, 9, 7],
     [3, 6, 7, 4, 1, 5, 9, 2, 8], [1, 9, 5, 0, 0, 8, 7, 0, 0], [8, 4, 0, 6, 0, 0, 1, 0, 0]] =
    solveRun
    [[2, 8, 4, 1, 3, 6, 5, 7, 9], [9, 1, 3, 7, 5, 4, 6, 8, 2], [7, 5, 6, 8, 9, 2, 3, 4, 1],
     [4, 7, 8, 9, 6, 1, 2, 3, 5], [5, 3, 9, 2, 8, 7, 4, 1, 6], [6, 2, 1, 5, 4, 3, 8, 9, 7],
     [3, 6, 7, 4, 1, 5, 9, 2, 8], [1, 9, 5, 0, 0, 8, 7, 0, 0], [8, 4, 0, 6, 0, 0, 1, 0, 0]] :=
  solveRun_step2 _ _ 4 4 8 (by decide) (by decide) (by decide) (by decide)

/-- Round 37 of the end-to-end solve: the digit 3 is placed at (7, 3). -/
theorem c8_round_37 :
    solveRun
    [[2, 8, 4, 1, 3, 6, 5, 7, 9], [9, 1, 3, 7, 5, 4, 6, 8, 2], [7, 5, 6, 8, 9, 2, 3, 4, 1],
     [4, 7, 8, 9, 6, 1, 2, 3, 5], [5, 3, 9, 2, 8, 7, 4, 1, 6], [6, 2, 1, 5, 4, 3, 8, 9, 7],
     [3, 6, 7, 4, 1, 5, 9, 2, 8], [1, 9, 5, 0, 0, 8, 7, 0, 0], [8, 4, 0, 6, 0, 0, 1, 0, 0]] =
    solveRun
    [[2, 8, 4, 1, 3, 6, 5, 7, 9], [9, 1, 3, 7, 5, 4, 6, 8, 2], [7, 5, 6, 8, 9, 2, 3, 4, 1],
     [4, 7, 8, 9, 6, 1, 2, 3, 5], [5, 3, 9, 2, 8, 7, 4, 1, 6], [6, 2, 1, 5, 4, 3, 8, 9, 7],
     [3, 6, 7, 4, 1, 5, 9, 2, 8], [1, 9, 5, 3, 0, 8, 7, 0, 0], [8, 4, 0, 6, 0, 0, 1, 0, 0]] :=
  solveRun_step2 _ _ 7 3 3 (by decide) (by decide) (by decide) (by decide)

/-- Round 38 of the end-to-end solve: the digit 2 is placed at (7, 4). -/
theorem c8_round_38 :
    solveRun
    [[2, 8, 4, 1, 3, 6, 5, 7, 9], [9, 1, 3, 7, 5, 4, 6, 8, 2], [7, 5, 6, 8, 9, 2, 3, 4, 1],
     [4, 7, 8, 9, 6, 1, 2, 3, 5], [5, 3, 9, 2, 8, 7, 4, 1, 6], [6, 2, 1, 5, 4, 3, 8, 9, 7],
     [3, 6, 7, 4, 1, 5, 9, 2, 8], [1, 9, 5, 3, 0, 8, 7, 0, 0], [8, 4, 0, 6, 0, 0, 1, 0, 0]] =
    solveRun
    [[2, 8, 4, 1, 3, 6, 5, 7, 9], [9, 1, 3, 7, 5, 4, 6, 8, 2], [7, 5, 6, 8, 9, 2, 3, 4, 1],
     [4, 7, 8, 9, 6, 1, 2, 3, 5], [5, 3, 9, 2, 8, 7, 4, 1, 6], [6, 2, 1, 5, 4, 3, 8, 9, 7],
     [3, 6, 7, 4, 1, 5, 9, 2, 8], [1, 9, 5, 3, 2, 8, 7, 0, 0], [8, 4, 0, 6, 0, 0, 1, 0, 0]] :=
  solveRun_step2 _ _ 7 4 2 (by decide) (by decide) (by decide) (by decide)

/-- Round 39 of the end-to-end solve: the digit 6 is placed at (7, 7). -/
theorem c8_round_39 :
    solveRun
    [[2, 8, 4, 1, 3, 6, 5, 7, 9], [9, 1, 3, 7, 5, 4, 6, 8, 2], [7, 5, 6, 8, 9, 2, 3, 4, 1],
     [4, 7, 8, 9, 6, 1, 2, 3, 5], [5, 3, 9, 2, 8, 7, 4, 1, 6], [6, 2, 1, 5, 4, 3, 8, 9, 7],
     [3, 6, 7, 4, 1, 5, 9, 2, 8], [1, 9, 5, 3, 2, 8, 7, 0, 0], [8, 4, 0, 6, 0, 0, 1, 0, 0]] =
    solveRun
    [[2, 8, 4, 1, 3, 6, 5, 7, 9], [9, 1, 3, 7, 5, 4, 6, 8, 2], [7, 5, 6, 8, 9, 2, 3, 4, 1],
     [4, 7, 8, 9, 6, 1, 2, 3, 5], [5, 3, 9, 2, 8, 7, 4, 1, 6], [6, 2, 1, 5, 4, 3, 8, 9, 7],
     [3, 6, 7, 4, 1, 5, 9, 2, 8], [1, 9, 5, 3, 2, 8, 7, 6, 0], [8, 4, 0, 6, 0, 0, 1, 0, 0]] :=
  solveRun_step2 _ _ 7 7 6 (by decide) (by decide) (by decide) (by decide)

/-- Round 40 of the end-to-end solve: the digit 4 is placed at (7, 8). -/
theorem c8_round_40 :
    solveRun
    [[2, 8, 4, 1, 3, 6, 5, 7, 9], [9, 1, 3, 7, 5, 4, 6, 8, 2], [7, 5, 6, 8, 9, 2, 3, 4, 1],
     [4, 7, 8, 9, 6, 1, 2, 3, 5], [5, 3, 9, 2, 8, 7, 4, 1, 6], [6, 2, 1, 5, 4, 3, 8, 9, 7],
     [3, 6, 7, 4, 1, 5, 9, 2, 8], [1, 9, 5, 3, 2, 8, 7, 6, 0], [8, 4, 0, 6, 0, 0, 1, 0, 0]] =
    solveRun
    [[2, 8, 4, 1, 3, 6, 5, 7, 9], [9, 1, 3, 7, 5, 4, 6, 8, 2], [7, 5, 6, 8, 9, 2, 3, 4, 1],
     [4, 7, 8, 9, 6, 1, 2, 3, 5], [5, 3, 9, 2, 8, 7, 4, 1, 6], [6, 2, 1, 5, 4, 3, 8, 9, 7],
     [3, 6, 7, 4, 1, 5, 9, 2, 8], [1, 9, 5, 3, 2, 8, 7, 6, 4], [8, 4, 0, 6, 0, 0, 1, 0, 0]] :=
  solveRun_step2 _ _ 7 8 4 (by decide) (by decide) (by decide) (by decide)

/-- Round 41 of the end-to-end solve: the digit 2 is placed at (8, 2). -/
theorem c8_round_41 :
    solveRun
    [[2, 8, 4, 1, 3, 6, 5, 7, 9], [9, 1, 3, 7, 5, 4, 6, 8, 2], [7, 5, 6, 8, 9, 2, 3, 4, 1],
     [4, 7, 8, 9, 6, 1, 2, 3, 5], [5, 3, 9, 2, 8, 7, 4, 1, 6], [6, 2, 1, 5, 4, 3, 8, 9, 7],
     [3, 6, 7, 4, 1, 5, 9, 2, 8], [1, 9, 5, 3, 2, 8, 7, 6, 4], [8, 4, 0, 6, 0, 0, 1, 0, 0]] =
    solveRun
    [[2, 8, 4, 1, 3, 6, 5, 7, 9], [9, 1, 3, 7, 5, 4, 6, 8, 2], [7, 5, 6, 8, 9, 2, 3, 4, 1],
     [4, 7, 8, 9, 6, 1, 2, 3, 5], [5, 3, 9, 2, 8, 7, 4, 1, 6], [6, 2, 1, 5, 4, 3, 8, 9, 7],
     [3, 6, 7, 4, 1, 5, 9, 2, 8], [1, 9, 5, 3, 2, 8, 7, 6, 4], [8, 4, 2, 6, 0, 0, 1, 0, 0]] :=
  solveRun_step2 _ _ 8 2 2 (by decide) (by decide) (by decide) (by decide)

/-- Round 42 of the end-to-end solve: the digit 7 is placed at (8, 4). -/
theorem c8_round_42 :
    solveRun
    [[2, 8, 4, 1, 3, 6, 5, 7, 9], [9, 1, 3, 7, 5, 4, 6, 8, 2], [7, 5, 6, 8, 9, 2, 3, 4, 1],
     [4, 7, 8, 9, 6, 1, 2, 3, 5], [5, 3, 9, 2, 8, 7, 4, 1, 6], [6, 2, 1, 5, 4, 3, 8, 9, 7],
     [3, 6, 7, 4, 1, 5, 9, 2, 8], [1, 9, 5, 3, 2, 8, 7, 6, 4], [8, 4, 2, 6, 0, 0, 1, 0, 0]] =
    solveRun
    [[2, 8, 4, 1, 3, 6, 5, 7, 9], [9, 1, 3, 7, 5, 4, 6, 8, 2], [7, 5, 6, 8, 9, 2, 3, 4, 1],
     [4, 7, 8, 9, 6, 1, 2, 3, 5], [5, 3, 9, 2, 8, 7, 4, 1, 6], [6, 2, 1, 5, 4, 3, 8, 9, 7],
     [3, 6, 7, 4, 1, 5, 9, 2, 8], [1, 9, 5, 3, 2, 8, 7, 6, 4], [8, 4, 2, 6, 7, 0, 1, 0, 0]] :=
  solveRun_step2 _ _ 8 4 7 (by decide) (by decide) (by decide) (by decide)

/-- Round 43 of the end-to-end solve: the digit 9 is placed at (8, 5). -/
theorem c8_round_43 :
    solveRun
    [[2, 8, 4, 1, 3, 6, 5, 7, 9], [9, 1, 3, 7, 5, 4, 6, 8, 2], [7, 5, 6, 8, 9, 2, 3, 4, 1],
     [4, 7, 8, 9, 6, 1, 2, 3, 5], [5, 3, 9, 2, 8, 7, 4, 1, 6], [6, 2, 1, 5, 4, 3, 8, 9, 7],
     [3, 6, 7, 4, 1, 5, 9, 2, 8], [1, 9, 5, 3, 2, 8, 7, 6, 4], [8, 4, 2, 6, 7, 0, 1, 0, 0]] =
    solveRun
    [[2, 8, 4, 1, 3, 6, 5, 7, 9], [9, 1, 3, 7, 5, 4, 6, 8, 2], [7, 5, 6, 8, 9, 2, 3, 4, 1],
     [4, 7, 8, 9, 6, 1, 2, 3, 5], [5, 3, 9, 2, 8, 7, 4, 1, 6], [6, 2, 1, 5, 4, 3, 8, 9, 7],
     [3, 6, 7, 4, 1, 5, 9, 2, 8], [1, 9, 5, 3, 2, 8, 7, 6, 4], [8, 4, 2, 6, 7, 9, 1, 0, 0]] :=
  solveRun_step2 _ _ 8 5 9 (by decide) (by decide) (by decide) (by decide)

/-- Round 44 of the end-to-end solve: the digit 5 is placed at (8, 7). -/
theorem c8_round_44 :
    solveRun
    [[2, 8, 4, 1, 3, 6, 5, 7, 9], [9, 1, 3, 7, 5, 4, 6, 8, 2], [7, 5, 6, 8, 9, 2, 3, 4, 1],
     [4, 7, 8, 9, 6, 1, 2, 3, 5], [5, 3, 9, 2, 8, 7, 4, 1, 6], [6, 2, 1, 5, 4, 3, 8, 9, 7],
     [3, 6, 7, 4, 1, 5, 9, 2, 8], [1, 9, 5, 3, 2, 8, 7, 6, 4], [8, 4, 2, 6, 7, 9, 1, 0, 0]] =
    solveRun
    [[2, 8, 4, 1, 3, 6, 5, 7, 9], [9, 1, 3, 7, 5, 4, 6, 8, 2], [7, 5, 6, 8, 9, 2, 3, 4, 1],
     [4, 7, 8, 9, 6, 1, 2, 3, 5], [5, 3, 9, 2, 8, 7, 4, 1, 6], [6, 2, 1, 5, 4, 3, 8, 9, 7],
     [3, 6, 7, 4, 1, 5, 9, 2, 8], [1, 9, 5, 3, 2, 8, 7, 6, 4], [8, 4, 2, 6, 7, 9, 1, 5, 0]] :=
  solveRun_step2 _ _ 8 7 5 (by decide) (by decide) (by decide) (by decide)

/-- Round 45 of the end-to-end solve: the digit 3 is placed at (8, 8). -/
theorem c8_round_45 :
    solveRun
    [[2, 8, 4, 1, 3, 6, 5, 7, 9], [9, 1, 3, 7, 5, 4, 6, 8, 2], [7, 5, 6, 8, 9, 2, 3, 4, 1],
     [4, 7, 8, 9, 6, 1, 2, 3, 5], [5, 3, 9, 2, 8, 7, 4, 1, 6], [6, 2, 1, 5, 4, 3, 8, 9, 7],
     [3, 6, 7, 4, 1, 5, 9, 2, 8], [1, 9, 5, 3, 2, 8, 7, 6, 4], [8, 4, 2, 6, 7, 9, 1, 5, 0]] =
    solveRun
    c8Solution :=
  solveRun_step2 _ _ 8 8 3 (by decide) (by decide) (by decide) (by decide)

/-- The composed run: from the decoded input to the full solution. -/
theorem c8_chain : solveRun (sdm_to_array c8Input) = (some c8Solution, c8Solution) := by
  rw [(by decide : sdm_to_array c8Input =
    [[0, 0, 4, 0, 0, 6, 0, 7, 9], [0, 0, 0, 0, 0, 0, 6, 0, 2], [0, 5, 6, 0, 9, 2, 3, 0, 0],
     [0, 7, 8, 0, 6, 1, 0, 3, 0], [5, 0, 9, 0, 0, 0, 4, 0, 6], [0, 2, 0, 5, 4, 0, 8, 9, 0],
     [0, 0, 7, 4, 1, 0, 9, 2, 0], [1, 0, 5, 0, 0, 0, 0, 0, 0], [8, 4, 0, 6, 0, 0, 1, 0, 0]])]
  rw [c8_round_01,
    c8_round_02,
    c8_round_03,
    c8_round_04,
    c8_round_05,
    c8_round_06,
    c8_round_07,
    c8_round_08,
    c8_round_09,
    c8_round_10,
    c8_round_11,
    c8_round_12,
    c8_round_13,
    c8_round_14,
    c8_round_15,
    c8_round_16,
    c8_round_17,
    c8_round_18,
    c8_round_19,
    c8_round_20,
    c8_round_21,
    c8_round_22,
    c8_round_23,
    c8_round_24,
    c8_round_25,
    c8_round_26,
    c8_round_27,
    c8_round_28,
    c8_round_29,
    c8_round_30,
    c8_round_31,
    c8_round_32,
    c8_round_33,
    c8_round_34,
    c8_round_35,
    c8_round_36,
    c8_round_37,
    c8_round_38,
    c8_round_39,
    c8_round_40,
    c8_round_41,
    c8_round_42,
    c8_round_43,
    c8_round_44,
    c8_round_45]
  rw [solveRun, solveAux_succ, if_pos (by decide : isFull c8Solution = true)]
  rfl

/-- C8: on the grid decoded from the 81-character SDM string, the solver
returns `some` of a fully filled grid in which every row, column and region
holds each digit 1..9 exactly once. -/
theorem c8_end_to_end :
    solve_puzzle (sdm_to_array c8Input) = some c8Solution ∧
    isFull c8Solution = true ∧ unitsComplete c8Solution = true := by
  refine ⟨?_, by decide, by decide⟩
  rw [solve_puzzle, c8_chain]

set_option maxHeartbeats 2000000 in
/-- The run on the contradictory grid `gDup`: one digit is placed, then no
rule applies, and the mutated state is handed back with the failure. -/
theorem gDup_run : solveRun gDup = (none, setCell gDup 0 8 9) := by decide

/-- C1 counterexample: `gDup` already holds the digit 5 twice in row 1, yet
the solver does not reject it: its first propagation round places the digit
9 into the previously void cell (0, 8).  This refutes the claim that no
digit is ever placed on a contradictory grid (and there is no InvalidPuzzle
outcome anywhere in the code). -/
theorem c1_counterexample :
    consistent gDup = false ∧ getCell gDup 0 8 = 0 ∧
    getCell (solveState gDup) 0 8 = 9 := by
  refine ⟨by decide, by decide, ?_⟩
  rw [solveState, gDup_run]
  decide

/-- C1 amended: the solver performs no input validation at all.  On the
contradictory grid `gDup` it starts propagating immediately: the first
round places 9 at (0, 8), and the whole solve runs to its normal end with
the placement retained in the observable state. -/
theorem c1_no_validation :
    consistent gDup = false ∧ findPlacement gDup = some (0, 8, 9) ∧
    solveState gDup = setCell gDup 0 8 9 := by
  refine ⟨by decide, by decide, ?_⟩
  rw [solveState, gDup_run]

/-- C3 counterexample: on `gSetOrder` no naked single exists and row 0 has
two hidden singles, digit 2 at (0, 0) and digit 8 at (0, 1).  Under the
ascending-digit traversal stated by the claim the first qualifying pair is
(cell (0, 0), digit 2), but the code iterates the Python set
`digits_to_check = {2, 3, 8, 9}` in CPython table order 8, 9, 2, 3 and
places digit 8 at (0, 1). -/
theorem c3_counterexample :
    findPlacement gSetOrder = some (0, 1, 8) ∧
    specFindPlacement gSetOrder = some (0, 0, 2) ∧
    findPlacement gSetOrder ≠ specFindPlacement gSetOrder := by
  refine ⟨by decide, by decide, by decide⟩

set_option maxHeartbeats 2000000 in
/-- The run on `gMono`: the digit 9 is placed at (0, 8), then no rule
applies, and the mutated state is handed back with the failure. -/
theorem gMono_run : solveRun gMono = (none, gMonoAfter) := by decide

/-- C10: the solver mutates its argument and does not roll back on failure.
On `gMono` the result is the failure value `none`, yet the observable grid
after the call differs from the one passed in: it retains the digit 9
placed at (0, 8) by the round that preceded the failure. -/
theorem c10_no_rollback :
    solve_puzzle gMono = none ∧ solveState gMono ≠ gMono ∧
    solveState gMono = gMonoAfter ∧ gMonoAfter = setCell gMono 0 8 9 := by
  refine ⟨?_, ?_, ?_, by decide⟩
  · rw [solve_puzzle, gMono_run]
  · rw [solveState, gMono_run]
    decide
  · rw [solveState, gMono_run]
